import Mathlib

/-!
Verification development for the js-game repository (multiplayer first-person
parkour/shooter).  The TypeScript sources are shallowly embedded in Lean:

* JavaScript numbers are modelled as rationals; every arithmetic step of the
  embedded code is translated exactly.  Square roots and arc-cosines produced
  by raycast geometry are irrational, so values that the source obtains from
  raycasts (hit distances, hit points, unit face normals, slope angles in
  degrees) are supplied as explicit environment data to each call, and the
  code that consumes them is translated verbatim.  Comparisons of the form
  a < length(v) are translated as sign-aware comparisons with length squared,
  which is equivalent for nonnegative a.
* Presentation-only effects (console logging, camera, head bob, FOV, UI
  prompts, meshes, tracers) are omitted: they read but never write the
  simulation state handled here.  The trailing console.log of
  CharacterController.jump references an undeclared identifier; logging is
  modelled as a no-op.
* In-place mutation is modelled by explicit state passing: each embedded
  function returns the updated versions of every object the source mutates.
-/

set_option maxRecDepth 16000

unseal Rat.add Rat.sub Rat.mul Rat.inv Rat.ofScientific

namespace JsGame

/-- A 3-component vector of rationals, mirroring THREE.Vector3 as used by the
game code (JavaScript numbers modelled as rationals). -/
structure Vec3 where
  x : ℚ
  y : ℚ
  z : ℚ
deriving DecidableEq, Repr

namespace Vec3

def add (a b : Vec3) : Vec3 := ⟨a.x + b.x, a.y + b.y, a.z + b.z⟩

def sub (a b : Vec3) : Vec3 := ⟨a.x - b.x, a.y - b.y, a.z - b.z⟩

def smul (c : ℚ) (a : Vec3) : Vec3 := ⟨c * a.x, c * a.y, c * a.z⟩

def neg (a : Vec3) : Vec3 := ⟨-a.x, -a.y, -a.z⟩

def dot (a b : Vec3) : ℚ := a.x * b.x + a.y * b.y + a.z * b.z

/-- Squared length, used to translate length comparisons exactly. -/
def lengthSq (a : Vec3) : ℚ := a.x * a.x + a.y * a.y + a.z * a.z

def zero : Vec3 := ⟨0, 0, 0⟩

/-- Linear interpolation, mirroring THREE.Vector3.lerp. -/
def lerp (a b : Vec3) (t : ℚ) : Vec3 :=
  ⟨a.x + (b.x - a.x) * t, a.y + (b.y - a.y) * t, a.z + (b.z - a.z) * t⟩

end Vec3

/-- Decides a < sqrt s for a rational a and a nonnegative rational s (s being
a squared length).  Used to translate comparisons between a raycast hit
distance and an irrational vector length. -/
def ltSqrt (a s : ℚ) : Bool := a < 0 || a * a < s

/-- JavaScript Math.sign restricted to rationals. -/
def qsign (a : ℚ) : ℚ := if a > 0 then 1 else if a < 0 then -1 else 0

/-! ## Weapon system (src/src/systems/weapon-system.ts, src/src/core/config.ts) -/

/-- Weapon types from src/src/core/config.ts. -/
inductive WeaponType where
  | assaultRifle
  | pistol
  | sniper
  | smg
deriving DecidableEq, Repr

/-- WeaponStats from src/src/core/config.ts.  The reloadTime field is
documented there as milliseconds. -/
structure WeaponStats where
  damage : ℚ
  range : ℚ
  fireRate : ℚ
  magazineSize : ℚ
  reloadTime : ℚ
  accuracy : ℚ
  recoil : ℚ
deriving DecidableEq, Repr

/-- WEAPON_CONFIGS from src/src/core/config.ts. -/
def WEAPON_CONFIGS : WeaponType → WeaponStats
  | .assaultRifle => ⟨25, 500, 600, 30, 2500, 0.8, 0.3⟩
  | .pistol       => ⟨15, 200, 300, 12, 1500, 0.9, 0.1⟩
  | .sniper       => ⟨100, 1000, 40, 5, 4000, 0.98, 0.8⟩
  | .smg          => ⟨18, 150, 900, 25, 2000, 0.7, 0.2⟩

/-- WeaponState from src/src/core/types.ts. -/
structure WeaponState where
  currentAmmo : ℚ
  isReloading : Bool
  lastFireTime : ℚ
  reloadStartTime : ℚ
deriving DecidableEq, Repr

/-- The claim-relevant state of the client WeaponSystem
(src/src/systems/weapon-system.ts): current weapon, its WeaponState and the
isFiring latch.  Scene, camera, meshes, projectiles and UI are presentation
state not modelled here. -/
structure WeaponSys where
  currentWeapon : WeaponType
  weaponState : WeaponState
  isFiring : Bool
deriving DecidableEq, Repr

namespace WeaponSys

/-- The WeaponSystem constructor state: assault rifle with a full magazine. -/
def init : WeaponSys :=
  { currentWeapon := .assaultRifle
    weaponState :=
      { currentAmmo := (WEAPON_CONFIGS .assaultRifle).magazineSize
        isReloading := false
        lastFireTime := 0
        reloadStartTime := 0 }
    isFiring := false }

/-- WeaponSystem.setFiring. -/
def setFiring (s : WeaponSys) (b : Bool) : WeaponSys := { s with isFiring := b }

/-- WeaponSystem.startReload.  The parameter now stands for Date.now() at the
moment of the call. -/
def startReload (s : WeaponSys) (now : ℚ) : WeaponSys :=
  if s.weaponState.isReloading then s
  else
    let config := WEAPON_CONFIGS s.currentWeapon
    if s.weaponState.currentAmmo = config.magazineSize then s
    else
      { s with weaponState :=
        { s.weaponState with isReloading := true, reloadStartTime := now } }

/-- WeaponSystem.fire.  Returns the boolean result together with the updated
state.  Projectile creation, muzzle flash and recoil are presentation effects
and are omitted; the auto-reload triggered on an empty magazine calls
startReload within the same millisecond, so it receives the same now. -/
def fire (s : WeaponSys) (now : ℚ) : Bool × WeaponSys :=
  let config := WEAPON_CONFIGS s.currentWeapon
  let timeBetweenShots := 60000 / config.fireRate
  if s.weaponState.isReloading ∨ s.weaponState.currentAmmo ≤ 0 ∨
      now - s.weaponState.lastFireTime < timeBetweenShots then
    (false, s)
  else
    let s := { s with weaponState :=
      { s.weaponState with
          currentAmmo := s.weaponState.currentAmmo - 1
          lastFireTime := now } }
    let s := if s.weaponState.currentAmmo ≤ 0 then s.startReload now else s
    (true, s)

/-- WeaponSystem.finishReload. -/
def finishReload (s : WeaponSys) : WeaponSys :=
  let config := WEAPON_CONFIGS s.currentWeapon
  { s with weaponState :=
    { s.weaponState with currentAmmo := config.magazineSize, isReloading := false } }

/-- WeaponSystem.update.  Recoil recovery, projectile updates and UI updates
are presentation effects and are omitted.  Both Date.now() reads of one update
call happen within the same millisecond and are modelled by the single
parameter now. -/
def update (s : WeaponSys) (now : ℚ) : WeaponSys :=
  let s := if s.isFiring then (s.fire now).2 else s
  if s.weaponState.isReloading then
    let config := WEAPON_CONFIGS s.currentWeapon
    let reloadTime := config.reloadTime * 1000
    if now - s.weaponState.reloadStartTime ≥ reloadTime then s.finishReload else s
  else s

/-- WeaponSystem.switchWeapon. -/
def switchWeapon (s : WeaponSys) (weaponType : WeaponType) : WeaponSys :=
  if s.currentWeapon = weaponType then s
  else
    { s with
        currentWeapon := weaponType
        weaponState :=
          { currentAmmo := (WEAPON_CONFIGS weaponType).magazineSize
            isReloading := false
            lastFireTime := 0
            reloadStartTime := 0 } }

end WeaponSys

/-- One externally triggered operation on the client WeaponSystem: a direct
fire request, a per-frame update (which fires when the isFiring latch is set
and then advances the reload), a reload request, setting the isFiring latch,
or a weapon switch.  Each time-stamped operation carries its Date.now()
value. -/
inductive WOp where
  | fireOp (now : ℚ)
  | updateOp (now : ℚ)
  | startReloadOp (now : ℚ)
  | setFiringOp (b : Bool)
  | switchOp (t : WeaponType)
deriving DecidableEq, Repr

/-- Applies one operation to the weapon system. -/
def WOp.apply (s : WeaponSys) : WOp → WeaponSys
  | .fireOp now => (s.fire now).2
  | .updateOp now => s.update now
  | .startReloadOp now => s.startReload now
  | .setFiringOp b => s.setFiring b
  | .switchOp t => s.switchWeapon t

/-- Runs a list of operations. -/
def runWOps (s : WeaponSys) : List WOp → WeaponSys
  | [] => s
  | op :: ops => runWOps (op.apply s) ops

/-- Collects the timestamps of accepted fire events (shots actually produced)
along a run, both from direct fire requests and from updates that fire via
the isFiring latch. -/
def acceptedFires (s : WeaponSys) : List WOp → List ℚ
  | [] => []
  | .fireOp now :: ops =>
      if (s.fire now).1 then now :: acceptedFires (s.fire now).2 ops
      else acceptedFires (s.fire now).2 ops
  | .updateOp now :: ops =>
      if s.isFiring ∧ (s.fire now).1 then now :: acceptedFires (s.update now) ops
      else acceptedFires (s.update now) ops
  | op :: ops => acceptedFires (op.apply s) ops

/-- True when the operation is a weapon switch (which replaces the weapon
instance). -/
def WOp.isSwitch : WOp → Bool
  | .switchOp _ => true
  | _ => false



/-- The per-player fire gate of the server tick loop
(src/src/server/server-game.ts, ServerGame.update): on each tick carrying a
latched fire input, a shot is produced only when
now - lastFireTime > 1000 / (fireRate / 60), and acceptance records now as the
new lastFireTime.  Each list entry is one tick: its Date.now() value and the
latched fire flag.  Returns the timestamps of the accepted shots. -/
def serverAcceptedFires (fireRate : ℚ) (lastFireTime : ℚ) : List (ℚ × Bool) → List ℚ
  | [] => []
  | (now, fire) :: ticks =>
      if fire = true ∧ now - lastFireTime > 1000 / (fireRate / 60) then
        now :: serverAcceptedFires fireRate now ticks
      else serverAcceptedFires fireRate lastFireTime ticks

/-! ## Collision system (src/src/physics/physics.ts, class CollisionSystem)

The raycast probes query arbitrary triangle meshes; their results (hit
distances, hit points, transformed or normalized face normals, and the
arc-cosine based angles the code derives from normals) are irrational
functions of the world geometry, so they are supplied as explicit probe data
to each call, and every piece of code consuming them is translated exactly.
World matrices are taken as identity (world geometry baked in world space). -/

/-- A world collider as the collision system sees it: its position (the only
field the system may write) and the loose userData tags it reads.  The mass
field models userData.mass, with 0 standing for the absent/falsy value that
the expression (userData.mass or 1) replaces by 1. -/
structure Collider where
  position : Vec3
  nonCollidable : Bool
  isMovable : Bool
  mass : ℚ
  nonClimbable : Bool
deriving DecidableEq, Repr

/-- Values of CollisionResult.collisionDirection used by the code. -/
inductive CollisionDir where
  | horizontal
  | sweep
  | penetration
deriving DecidableEq, Repr

/-- Ledge information stored in CollisionResult.ledgeInfo, with the object
reference replaced by a collider index. -/
structure LedgeInfo where
  point : Vec3
  normal : Vec3
  objIdx : ℕ
deriving DecidableEq, Repr

/-- CollisionResult from src/src/core/types.ts, with object references
replaced by collider indices.  hasWallCollision is declared in the interface
and read by the server character controller but never assigned by
CollisionSystem.checkCollision, so it stays at its default. -/
structure CollisionResult where
  isOnGround : Bool
  isOnSlope : Bool
  slopeAngle : ℚ
  slopeNormal : Vec3
  collisionDirection : Option CollisionDir
  objectBelow : Option ℕ
  adjustedPosition : Vec3
  groundHeight : ℚ
  canStepUp : Bool
  hitPoint : Option Vec3
  wallNormal : Option Vec3
  canGrabLedge : Bool
  ledgeInfo : Option LedgeInfo
  hasWallCollision : Bool
deriving DecidableEq, Repr

/-- A downward ground-probe hit: the hit point, the hit collider index,
whether the hit carries a face, the transformed face normal, and the angle in
degrees between that normal and world-up (the arc-cosine the code computes is
carried as probe data). -/
structure GroundHit where
  point : Vec3
  objIdx : ℕ
  hasFace : Bool
  normal : Vec3
  angleDeg : ℚ
deriving DecidableEq, Repr

/-- A horizontal probe hit: distance along the ray, the hit point y
coordinate, the hit collider index, and the wall normal after the code has
selected face normal or negated ray direction, transformed it, zeroed its y
component and normalized it (carried as probe data since normalization is
irrational). -/
structure HorizHit where
  distance : ℚ
  pointY : ℚ
  objIdx : ℕ
  normalH : Vec3
deriving DecidableEq, Repr

/-- A forward ledge-probe hit used by checkForLedges. -/
structure LedgeRayHit where
  point : Vec3
  objIdx : ℕ
  hasFace : Bool
  faceNormal : Vec3
deriving DecidableEq, Repr

/-- A downward probe above a candidate ledge used by checkForLedges; angleRad
is the angle in radians between the transformed face normal and world-up. -/
structure AboveRayHit where
  pointY : ℚ
  hasFace : Bool
  angleRad : ℚ
deriving DecidableEq, Repr

/-- The probe results of one checkCollision call: the five downward ground
probes (center first, then the four corner probes), the three-by-eight grid
of horizontal probes (outer list by ray height, inner by ray direction), and
the two ledge probes. -/
structure CollisionOracle where
  groundHits : List (Option GroundHit)
  horizHits : List (List (Option HorizHit))
  ledgeHit : Option LedgeRayHit
  aboveHit : Option AboveRayHit
deriving DecidableEq, Repr

/-- No probe ray of the call hit any collider: every ground probe, every
horizontal probe and the forward ledge probe came back empty. -/
def CollisionOracle.noHits (orc : CollisionOracle) : Bool :=
  orc.groundHits.all (fun h => h.isNone) &&
  (orc.horizHits.all fun row => row.all fun h => h.isNone) &&
  orc.ledgeHit.isNone

/-- Running aggregate of the ground-probe loop of checkCollision, mirroring
its local variables (any replaces the minus and plus infinity sentinels of
closestGroundPoint and lowestGroundPoint). -/
structure GroundAgg where
  any : Bool
  closest : ℚ
  lowest : ℚ
  normal : Vec3
  angleDeg : ℚ
  objBelow : Option ℕ
  hitPoint : Option Vec3
deriving DecidableEq, Repr

/-- Initial aggregate: no ground detected, groundNormal (0,1,0) whose angle to
world-up is 0. -/
def GroundAgg.init : GroundAgg :=
  { any := false, closest := 0, lowest := 0, normal := ⟨0, 1, 0⟩, angleDeg := 0
    objBelow := none, hitPoint := none }

/-- Folds one ground-probe result into the aggregate (checkCollision ground
loop body).  isCenter states whether the probe origin coincides with the
character position in x and z within 0.01. -/
def GroundAgg.update (agg : GroundAgg) (h : GroundHit) (isCenter : Bool) : GroundAgg :=
  let lowerTrig := !agg.any || decide (h.point.y < agg.lowest)
  { any := true
    closest := if !agg.any || decide (h.point.y > agg.closest) then h.point.y else agg.closest
    lowest := if lowerTrig then h.point.y else agg.lowest
    normal := if lowerTrig && h.hasFace then h.normal else agg.normal
    angleDeg := if lowerTrig && h.hasFace then h.angleDeg else agg.angleDeg
    objBelow := if lowerTrig then some h.objIdx else agg.objBelow
    hitPoint := if isCenter then some h.point else agg.hitPoint }

/-- Runs the ground-probe loop.  The first probe starts at the character
position (always center); the corner probes are offset by 0.7 times the
player radius in x and z, so they count as center only when that offset is
below 0.01 in absolute value. -/
def scanGround (playerRadius : ℚ) : List (Option GroundHit) → ℕ → GroundAgg → GroundAgg
  | [], _, agg => agg
  | h :: hs, idx, agg =>
      let isCenter := decide (idx = 0) || decide (|0.7 * playerRadius| < 0.01)
      let agg := match h with
        | none => agg
        | some hit => agg.update hit isCenter
      scanGround playerRadius hs (idx + 1) agg

/-- State threaded through the horizontal-probe loop of checkCollision:
the mutated position, the result adjustedPosition, the mutated velocity, the
collider list, the running wallNormal vector and the horizontalCollision
flag. -/
structure HorizState where
  position : Vec3
  adjusted : Vec3
  velocity : Vec3
  objects : List Collider
  wallNormal : Vec3
  horizontalCollision : Bool
deriving DecidableEq, Repr

/-- Replaces the collider at an index (in-place object mutation made
explicit). -/
def setCollider : List Collider → ℕ → Collider → List Collider
  | [], _, _ => []
  | _ :: cs, 0, c => c :: cs
  | c0 :: cs, Nat.succ n, c => c0 :: setCollider cs n c

/-- Processes one horizontal probe hit (checkCollision horizontal loop body).
dir is the ray direction for this probe; rayDistance is playerRadius plus
0.05; objBelow is result.objectBelow from the ground scan. -/
def horizHitStep (objBelow : Option ℕ) (rayDistance : ℚ) (dir : Vec3)
    (st : HorizState) (h : HorizHit) : HorizState :=
  if some h.objIdx = objBelow ∧ h.pointY < st.position.y + 0.4 then st
  else
    match st.objects.get? h.objIdx with
    | none => st
    | some obj =>
      if obj.nonCollidable then st
      else
        let objects :=
          if obj.isMovable then
            let pushStrength : ℚ := 0.04
            let mass := if obj.mass = 0 then 1 else obj.mass
            let pushAmount := pushStrength / mass
            let pushVector :=
              Vec3.smul (pushAmount * max |st.velocity.x| |st.velocity.z|) dir
            setCollider st.objects h.objIdx
              { obj with position :=
                  { obj.position with
                      x := obj.position.x + pushVector.x
                      z := obj.position.z + pushVector.z } }
          else st.objects
        let normal := h.normalH
        let wallNormal := normal
        let pushBack := Vec3.smul (rayDistance - h.distance + 0.05) normal
        let position := st.position.add pushBack
        let adjusted := st.adjusted.add pushBack
        let vh : Vec3 × Bool :=
          if st.velocity.lengthSq > 0 then
            let dotv := st.velocity.dot normal
            if dotv < 0 then
              let slideDirection := st.velocity.sub (Vec3.smul dotv normal)
              (⟨slideDirection.x, st.velocity.y, slideDirection.z⟩, true)
            else (st.velocity, st.horizontalCollision)
          else (st.velocity, st.horizontalCollision)
        { position, adjusted, velocity := vh.1, objects, wallNormal
          horizontalCollision := vh.2 }

/-- Runs one height row of the horizontal probe grid, pairing each probe
result with its ray direction. -/
def horizRow (objBelow : Option ℕ) (rayDistance : ℚ) :
    List (Option HorizHit) → List Vec3 → HorizState → HorizState
  | [], _, st => st
  | _ :: _, [], st => st
  | none :: hs, _ :: ds, st => horizRow objBelow rayDistance hs ds st
  | some h :: hs, d :: ds, st =>
      horizRow objBelow rayDistance hs ds (horizHitStep objBelow rayDistance d st h)

/-- Runs the full horizontal probe grid (three ray heights). -/
def horizGrid (objBelow : Option ℕ) (rayDistance : ℚ) (dirs : List Vec3) :
    List (List (Option HorizHit)) → HorizState → HorizState
  | [], st => st
  | row :: rows, st => horizGrid objBelow rayDistance dirs rows (horizRow objBelow rayDistance row dirs st)

/-- CollisionSystem.checkForLedges.  Only evaluated while not grounded; the
forward probe must hit a climbable collider, the downward probe above the hit
must land on a face whose transformed normal is within 0.3 radians of
world-up, and the forward hit must itself carry a face.  On success the
stored ledge point is the forward hit point with its y coordinate replaced by
the surface hit y. -/
def checkForLedges (objects : List Collider) (orc : CollisionOracle)
    (result : CollisionResult) : CollisionResult :=
  if result.isOnGround then result
  else
    match orc.ledgeHit with
    | none => result
    | some hit =>
      let nonClimb := match objects.get? hit.objIdx with
        | some obj => obj.nonClimbable
        | none => false
      if nonClimb then result
      else
        match orc.aboveHit with
        | none => result
        | some above =>
          if above.hasFace then
            if above.angleRad < 0.3 ∧ hit.hasFace then
              { result with
                  canGrabLedge := true
                  ledgeInfo := some
                    { point := { hit.point with y := above.pointY }
                      normal := hit.faceNormal
                      objIdx := hit.objIdx } }
            else result
          else result

/-- Output of checkCollision: the result object and the final versions of the
three values the call mutates in place (position, velocity, colliders). -/
structure CheckCollisionOut where
  result : CollisionResult
  position : Vec3
  velocity : Vec3
  objects : List Collider
deriving DecidableEq, Repr



/-- CollisionSystem.checkCollision (src/src/physics/physics.ts).  Translated
step by step: the hard-floor clamp, the five-probe ground scan, the
ground/step-up processing, the horizontal probe grid with movable pushes,
push-out and slide response, and the ledge check.  dirs supplies the eight
horizontal ray directions (cos and sin of the ring angles are irrational, so
the ring is a parameter); orc supplies the probe results.  The horizontal
speed comparison 0.01 < length(vx,0,vz) is translated as its square.  The
call mutates position, playerVelocity and movable colliders in place; the
returned record carries their final values. -/
def checkCollision (position : Vec3) (objects : List Collider)
    (cameraDirection : Vec3) (playerVelocity : Vec3)
    (playerHeight playerRadius : ℚ) (orc : CollisionOracle) (dirs : List Vec3) :
    CheckCollisionOut :=
  let result : CollisionResult :=
    { isOnGround := false, isOnSlope := false, slopeAngle := 0
      slopeNormal := ⟨0, 1, 0⟩, collisionDirection := none, objectBelow := none
      adjustedPosition := position, groundHeight := 0, canStepUp := false
      hitPoint := none, wallNormal := none, canGrabLedge := false
      ledgeInfo := none, hasWallCollision := false }
  let FLOOR_HEIGHT : ℚ := 0
  if position.y < FLOOR_HEIGHT + 0.05 then
    let position := { position with y := FLOOR_HEIGHT + 0.05 }
    let result := { result with
        isOnGround := true
        adjustedPosition := { result.adjustedPosition with y := position.y }
        groundHeight := FLOOR_HEIGHT }
    { result, position, velocity := playerVelocity, objects }
  else
    let MAX_STEP_HEIGHT : ℚ := 0.5
    let MIN_GROUND_CLEARANCE : ℚ := 0.02
    let GROUND_TOLERANCE : ℚ := 0.25
    let agg := scanGround playerRadius orc.groundHits 0 GroundAgg.init
    let result := { result with hitPoint := agg.hitPoint }
    let rpv : CollisionResult × Vec3 × Vec3 :=
      if agg.any then
        let distanceToGround := position.y - agg.lowest
        let stepHeight := agg.closest - agg.lowest
        let result := { result with
            slopeAngle := agg.angleDeg
            slopeNormal := agg.normal
            isOnSlope := decide (agg.angleDeg > 5) && decide (agg.angleDeg < 60)
            groundHeight := agg.lowest
            objectBelow := agg.objBelow }
        if distanceToGround ≤ GROUND_TOLERANCE then
          let targetHeight := agg.lowest + MIN_GROUND_CLEARANCE
          ({ result with
              isOnGround := true
              adjustedPosition := { result.adjustedPosition with y := targetHeight } },
            { position with y := targetHeight },
            { playerVelocity with y := 0 })
        else if playerVelocity.y ≤ 0 ∧ distanceToGround ≤ MAX_STEP_HEIGHT then
          if playerVelocity.x * playerVelocity.x + playerVelocity.z * playerVelocity.z
                > 0.01 * 0.01 ∧
              stepHeight < MAX_STEP_HEIGHT then
            let stepUpHeight := agg.closest + MIN_GROUND_CLEARANCE
            ({ result with
                isOnGround := true
                canStepUp := true
                adjustedPosition := { result.adjustedPosition with y := stepUpHeight } },
              { position with y := stepUpHeight },
              { playerVelocity with
                  x := playerVelocity.x * 0.9
                  z := playerVelocity.z * 0.9 })
          else (result, position, playerVelocity)
        else (result, position, playerVelocity)
      else (result, position, playerVelocity)
    let result := rpv.1
    let position := rpv.2.1
    let playerVelocity := rpv.2.2
    let rayDistance := playerRadius + 0.05
    let st : HorizState :=
      { position, adjusted := result.adjustedPosition, velocity := playerVelocity
        objects, wallNormal := ⟨0, 0, 0⟩, horizontalCollision := false }
    let st := horizGrid result.objectBelow rayDistance dirs orc.horizHits st
    let result := { result with adjustedPosition := st.adjusted }
    let result :=
      if st.horizontalCollision then
        { result with
            collisionDirection := some .horizontal
            wallNormal := some st.wallNormal }
      else result
    let result := checkForLedges st.objects orc result
    { result, position := st.position, velocity := st.velocity, objects := st.objects }


/-! ## Client character controller (src/src/controllers/character-controller.ts)

The controller state machine is translated field by field.  Camera, head bob,
FOV, pitch/yaw and debug bookkeeping only affect the rendering collaborator
and are omitted.  The input direction reaches the update already normalised
(update lines normalise it before use), so each tick carries the normalised
direction together with its length (the length is irrational in general and
only ever compared or multiplied, never stored).  All raycast-derived data of
one tick is carried by a tick environment, with post-processed values
(transformed, horizontalized or normalised normals; pulled-back sweep
positions) carried as data wherever the source computes them irrationally;
cross products of unit horizontal normals with world-up are computed exactly
and their normalisation is the identity there. -/

/-- The state of one CharacterController. -/
structure CState where
  position : Vec3
  velocity : Vec3
  height : ℚ
  eyeHeight : ℚ
  radius : ℚ
  isOnGround : Bool
  isJumping : Bool
  isCrouching : Bool
  isSliding : Bool
  isSprinting : Bool
  isGrabbingLedge : Bool
  canJump : Bool
  jumpCooldown : ℚ
  canMantleTimer : ℚ
  groundedTimer : ℚ
  ledgeGrabPoint : Option Vec3
  ledgeGrabNormal : Option Vec3
  mantleProgress : ℚ
  isMantling : Bool
  isWallRunning : Bool
  wallRunTimer : ℚ
  wallRunMaxTime : ℚ
  wallRunDirection : Option Vec3
  wallNormal : Option Vec3
deriving DecidableEq, Repr

/-- The constructor state of CharacterController at a camera position. -/
def CState.initial (pos : Vec3) : CState :=
  { position := pos, velocity := Vec3.zero
    height := 1.7, eyeHeight := 1.5, radius := 0.4
    isOnGround := false, isJumping := false, isCrouching := false
    isSliding := false, isSprinting := false, isGrabbingLedge := false
    canJump := true, jumpCooldown := 0, canMantleTimer := 0, groundedTimer := 0
    ledgeGrabPoint := none, ledgeGrabNormal := none
    mantleProgress := 0, isMantling := false
    isWallRunning := false, wallRunTimer := 0, wallRunMaxTime := 3
    wallRunDirection := none, wallNormal := none }

/-- Per-tick input: deltaTime, the normalised input direction with its
length, and the three button states. -/
structure CTickIn where
  dt : ℚ
  normInput : Vec3
  inputLen : ℚ
  jumpPressed : Bool
  crouchPressed : Bool
  sprintPressed : Bool
deriving DecidableEq, Repr

/-- The first collidable sweep-ray hit whose distance is below the move
distance, when one exists.  pulledPos is the original position advanced along
the unit move direction by distance minus radius minus 0.05 (used only when
that scalar is positive; it involves the irrational move length, so it is
carried as data).  normal is the transformed face normal, or the negated unit
move direction when the hit has no face. -/
structure SweepHit where
  distance : ℚ
  normal : Vec3
  pulledPos : Vec3
deriving DecidableEq, Repr

/-- Net effect of the bounded penetration-resolution passes: the total
position push applied, its normalised direction (carried as data), and the
last in-radius face normal horizontalized and normalised, when any hit
carried a face.  The pass rays use the ring directions cos and sin of
k pi over 12, so the push vector itself is raycast-derived data. -/
structure PenEffect where
  delta : Vec3
  normalUnit : Vec3
  wallN : Option Vec3
deriving DecidableEq, Repr

/-- Aggregate of the nine downward ground probes of checkFullCollision: was
any walkable candidate hit, the highest hit point y, the transformed normal
of the highest hit, and its arc-cosine based slope angle in degrees (carried
as data). -/
structure GroundProbeC where
  found : Bool
  height : ℚ
  normal : Vec3
  angleDeg : ℚ
deriving DecidableEq, Repr

/-- A ledge-grab candidate settled on by the ledge probe loops of
handleLedgeGrabbing: the wall hit point, the ledge surface hit point, whether
the surface hit carried a face, the flatness angle of the surface (degrees),
and the stored grab normal (wall face normal transformed, horizontalized and
normalised, or the negated probe direction when faceless). -/
structure LedgeCand where
  wallPoint : Vec3
  surfPoint : Vec3
  hasSurfaceFace : Bool
  surfaceAngleDeg : ℚ
  grabNormal : Vec3
deriving DecidableEq, Repr

/-- A wall candidate for starting a wall run: the probe direction that found
it, the raw transformed face normal, and that normal horizontalized and
normalised (as stored by startWallRunning). -/
structure WallRunStart where
  dir : Vec3
  rawNormal : Vec3
  horizUnit : Vec3
deriving DecidableEq, Repr

/-- A ledge candidate found while wall running (attemptLedgeGrabFromWallRun):
the surface hit point, whether it carried a face, and its flatness angle. -/
structure WallRunLedge where
  point : Vec3
  hasFace : Bool
  angleDeg : ℚ
deriving DecidableEq, Repr

/-- A wall hit for checkForWallJump: the raw transformed face normal. -/
structure WallJumpHit where
  rawNormal : Vec3
deriving DecidableEq, Repr

/-- All raycast results of one client tick. -/
structure CTickEnv where
  sweep : Option SweepHit
  pen : Option PenEffect
  ground : GroundProbeC
  ceilingY : Option ℚ
  ledge : Option LedgeCand
  ledgeMoveClear : Bool
  wallRunStart : Option WallRunStart
  wallRunStillOnWall : Bool
  wallRunLedge : Option WallRunLedge
  wallJump : Option WallJumpHit
  slideDir : Vec3
deriving DecidableEq, Repr

/-- An environment with no raycast hits at all (open air over nothing). -/
def CTickEnv.empty : CTickEnv :=
  { sweep := none, pen := none
    ground := { found := false, height := 0, normal := ⟨0, 1, 0⟩, angleDeg := 0 }
    ceilingY := none, ledge := none, ledgeMoveClear := false
    wallRunStart := none, wallRunStillOnWall := false, wallRunLedge := none
    wallJump := none, slideDir := Vec3.zero }

/-- CharacterController.checkClearanceToStand: the source simply returns
true. -/
def checkClearanceToStand (_s : CState) : Bool := true

/-- CharacterController.jump.  When crouching with clearance (always, see
checkClearanceToStand) the character stands up first; the dead no-clearance
small-hop branch is translated as written.  Then the position is nudged up by
0.05, the vertical velocity is set to the jump force 8, and the state flags
are updated.  The final console.log (which references an undeclared
identifier) is a no-op here. -/
def jumpFn (s : CState) : CState :=
  if s.isCrouching then
    if checkClearanceToStand s then
      let s := { s with isCrouching := false, isSliding := false
                        height := 1.7, eyeHeight := 1.5 }
      { s with
          position := { s.position with y := s.position.y + 0.05 }
          velocity := { s.velocity with y := 8 }
          isOnGround := false, isJumping := true, groundedTimer := 0 }
    else
      { s with velocity := { s.velocity with y := 8 * 0.6 }, isOnGround := false }
  else
    { s with
        position := { s.position with y := s.position.y + 0.05 }
        velocity := { s.velocity with y := 8 }
        isOnGround := false, isJumping := true, groundedTimer := 0 }

/-- CharacterController.onLanding. -/
def onLanding (s : CState) : CState := { s with isJumping := false, canJump := true }

/-- CharacterController.handleCrouching.  slideDir supplies the normalised
horizontal velocity read by the slide-boost branch (that branch is
unreachable from update because the inline crouch block runs first, but it is
translated as written). -/
def handleCrouching (s : CState) (isCrouchPressed : Bool) (slideDir : Vec3) : CState :=
  if isCrouchPressed ∧ ¬s.isCrouching ∧ ¬s.isGrabbingLedge then
    let s := { s with isCrouching := true, height := 0.9, eyeHeight := 0.7 }
    if s.isSprinting ∧ s.isOnGround then
      { s with
          isSliding := true
          velocity := { s.velocity with
              x := s.velocity.x + slideDir.x * 0.1
              z := s.velocity.z + slideDir.z * 0.1 } }
    else s
  else if ¬isCrouchPressed ∧ s.isCrouching then
    if checkClearanceToStand s then
      { s with isCrouching := false, isSliding := false, height := 1.7, eyeHeight := 1.5 }
    else s
  else s

/-- CharacterController.handleSprinting. -/
def handleSprinting (s : CState) (isSprintPressed : Bool) : CState :=
  if s.isCrouching then { s with isSprinting := false }
  else { s with isSprinting := isSprintPressed }

/-- CharacterController.applyMovement: frame-rate independent acceleration of
the horizontal velocity toward the input direction times the mode speed. -/
def applyMovement (s : CState) (inputDirection : Vec3) (dt : ℚ) : CState :=
  let currentSpeed : ℚ := if s.isSprinting then 8 else if s.isCrouching then 3 else 5
  let moveDirection : Vec3 := ⟨inputDirection.x, 0, inputDirection.z⟩
  let controlFactor : ℚ := if s.isOnGround then 1 else 0.6
  let targetVelocity := Vec3.smul (currentSpeed * controlFactor) moveDirection
  let acceleration : ℚ := if s.isOnGround then 30 else 15
  let deltaVelocity := targetVelocity.sub ⟨s.velocity.x, 0, s.velocity.z⟩
  { s with velocity := { s.velocity with
      x := s.velocity.x + deltaVelocity.x * acceleration * dt
      z := s.velocity.z + deltaVelocity.z * acceleration * dt } }

/-- CharacterController.applyGravity. -/
def applyGravity (s : CState) (dt : ℚ) : CState :=
  { s with velocity := { s.velocity with y := s.velocity.y - 22 * dt } }

/-- CharacterController.handleLedgeGrabbing.  The guards, the height window
0.4 to 3.0 and the flatness test below 35 degrees are translated; the
candidate the direction and height loops settle on is environment data. -/
def handleLedgeGrabbing (s : CState) (env : CTickEnv) : CState :=
  if s.isGrabbingLedge ∨ s.isOnGround ∨ s.isMantling then s
  else if s.velocity.y > 0.3 then s
  else
    match env.ledge with
    | none => s
    | some c =>
      let heightDiff := c.surfPoint.y - s.position.y
      if heightDiff < 0.4 ∨ heightDiff > 3.0 then s
      else
        let isFlat := if c.hasSurfaceFace then decide (c.surfaceAngleDeg < 35) else true
        if isFlat then
          let hangOffset := Vec3.smul (s.radius + 0.2) c.grabNormal
          { s with
              isGrabbingLedge := true
              velocity := Vec3.zero
              ledgeGrabPoint := some c.surfPoint
              ledgeGrabNormal := some c.grabNormal
              position :=
                ⟨c.wallPoint.x + hangOffset.x,
                  c.surfPoint.y - s.height + 0.4,
                  c.wallPoint.z + hangOffset.z⟩ }
        else s

/-- CharacterController.startMantling. -/
def startMantling (s : CState) : CState :=
  match s.ledgeGrabPoint, s.ledgeGrabNormal with
  | some _, some _ =>
      { s with isMantling := true, mantleProgress := 0, isGrabbingLedge := false }
  | _, _ => s

/-- CharacterController.handleLedgeMovement: mantle on jump, drop on strong
backward input, shimmy sideways when the clearance probe succeeds.  The right
direction along the ledge is the cross product of the stored unit horizontal
grab normal with world-up, for which the normalisation of the source is the
identity. -/
def handleLedgeMovement (s : CState) (inputDirection : Vec3) (isJumpPressed : Bool)
    (env : CTickEnv) : CState :=
  if ¬s.isGrabbingLedge then s
  else
    match s.ledgeGrabPoint, s.ledgeGrabNormal with
    | some point, some normal =>
      if isJumpPressed ∧ ¬s.isMantling then startMantling s
      else if inputDirection.z < -0.5 then
        { s with
            isGrabbingLedge := false, ledgeGrabPoint := none, ledgeGrabNormal := none
            velocity := { s.velocity with y := -0.1 } }
      else if |inputDirection.x| > 0.1 then
        let rightDirection : Vec3 := ⟨-normal.z, 0, normal.x⟩
        let moveDirection := Vec3.smul (inputDirection.x * 2) rightDirection
        if env.ledgeMoveClear then
          { s with
              position := s.position.add moveDirection
              ledgeGrabPoint := some (point.add moveDirection) }
        else
          { s with isGrabbingLedge := false, ledgeGrabPoint := none, ledgeGrabNormal := none }
      else s
    | _, _ => s

/-- CharacterController.updateMantling: deterministic smooth-step
interpolation from the hang position to the ledge top; the per-frame velocity
is the position delta divided by deltaTime. -/
def updateMantling (s : CState) (dt : ℚ) : CState :=
  if ¬s.isMantling then s
  else
    match s.ledgeGrabPoint, s.ledgeGrabNormal with
    | some point, some normal =>
      let progress := s.mantleProgress + dt * 1.8
      if progress ≥ 1 then
        let finalPosition0 := point.add (Vec3.smul (-s.radius - 0.1) normal)
        let finalPosition := { finalPosition0 with y := finalPosition0.y + 0.1 }
        { s with
            isMantling := false, mantleProgress := 0
            position := finalPosition, velocity := Vec3.zero
            ledgeGrabPoint := none, ledgeGrabNormal := none }
      else
        let t := progress
        let smoothT := t * t * (3 - 2 * t)
        let startPos0 := point.add (Vec3.smul (s.radius + 0.15) normal)
        let startPos := { startPos0 with y := startPos0.y - (s.height - 0.3) }
        let endPos0 := point.add (Vec3.smul (-s.radius - 0.1) normal)
        let endPos := { endPos0 with y := endPos0.y + 0.1 }
        let currentPos := startPos.lerp endPos smoothT
        let deltaPos := currentPos.sub s.position
        { s with mantleProgress := progress, velocity := Vec3.smul (1 / dt) deltaPos }
    | _, _ => s

/-- CharacterController.stopWallRunning. -/
def stopWallRunning (s : CState) : CState :=
  { s with isWallRunning := false, wallRunTimer := 0
           wallRunDirection := none, wallNormal := none }

/-- CharacterController.performWallJump. -/
def performWallJump (s : CState) : CState :=
  match s.wallNormal with
  | none => s
  | some n =>
    let jumpAwayForce := Vec3.smul 0.15 n
    let s := { s with
        velocity := ⟨jumpAwayForce.x, 0.22, jumpAwayForce.z⟩
        isOnGround := false, isJumping := true, groundedTimer := 0 }
    if s.isWallRunning then stopWallRunning s else s

/-- CharacterController.checkForWallJump: succeeds when the probe found a
wall whose raw normal has absolute y component below 0.3, storing that
normal. -/
def checkForWallJump (s : CState) (env : CTickEnv) : CState × Bool :=
  match env.wallJump with
  | none => (s, false)
  | some h =>
      if |h.rawNormal.y| < 0.3 then ({ s with wallNormal := some h.rawNormal }, true)
      else (s, false)

/-- CharacterController.attemptLedgeGrab simply re-runs handleLedgeGrabbing. -/
def attemptLedgeGrab (s : CState) (env : CTickEnv) : CState :=
  handleLedgeGrabbing s env

/-- CharacterController.attemptLedgeGrabFromWallRun.  Returns the state and
whether a ledge was grabbed. -/
def attemptLedgeGrabFromWallRun (s : CState) (env : CTickEnv) : CState × Bool :=
  match s.wallNormal with
  | none => (s, false)
  | some wn =>
    match env.wallRunLedge with
    | none => (s, false)
    | some c =>
      let heightDiff := c.point.y - s.position.y
      if heightDiff > 0.3 ∧ heightDiff < 2.5 then
        let isFlat := if c.hasFace then decide (c.angleDeg < 35) else true
        if isFlat then
          let hangOffset := Vec3.smul (s.radius + 0.2) wn
          ({ s with
              isWallRunning := false
              isGrabbingLedge := true
              velocity := Vec3.zero
              ledgeGrabPoint := some c.point
              ledgeGrabNormal := some wn
              position :=
                ⟨c.point.x + hangOffset.x,
                  c.point.y - s.height + 0.4,
                  c.point.z + hangOffset.z⟩ }, true)
        else (s, false)
      else (s, false)

/-- CharacterController.startWallRunning.  The stored wall normal is the raw
normal horizontalized and normalised (carried as data); the along-wall
direction is its cross product with world-up, oriented along the current
horizontal velocity (the normalisation of the source is the identity for
unit horizontal input). -/
def startWallRunning (s : CState) (horizUnit : Vec3) : CState :=
  let wallNormal := horizUnit
  let wallRunDirection0 : Vec3 := ⟨-wallNormal.z, 0, wallNormal.x⟩
  let currentHorizontalVel : Vec3 := ⟨s.velocity.x, 0, s.velocity.z⟩
  let wallRunDirection :=
    if currentHorizontalVel.dot wallRunDirection0 < 0 then wallRunDirection0.neg
    else wallRunDirection0
  { s with
      isWallRunning := true, wallRunTimer := 0
      wallNormal := some wallNormal
      wallRunDirection := some wallRunDirection
      velocity := { s.velocity with y := max s.velocity.y (-0.1) } }

/-- CharacterController.applyWallRunning. -/
def applyWallRunning (s : CState) (dt : ℚ) (inputDirection : Vec3) (inputLen : ℚ) :
    CState :=
  match s.wallRunDirection, s.wallNormal with
  | some _, some wallNormal =>
    let vy := s.velocity.y + (-0.002) * dt * 60
    let vy := max vy (-0.08)
    let vy := if vy > 0 then vy * 0.98 else vy
    let baseSpeed : ℚ := if s.isSprinting then 8 else 5
    let wallRunSpeed := baseSpeed * 1.1
    let inputMagnitude := min inputLen 1
    let actualSpeed := wallRunSpeed * inputMagnitude
    let wallTangent : Vec3 := ⟨-wallNormal.z, 0, wallNormal.x⟩
    let inputAlongWall := inputDirection.dot wallTangent
    let currentAlongWall := (⟨s.velocity.x, vy, s.velocity.z⟩ : Vec3).dot wallTangent
    let targetDirection : ℚ :=
      if |inputAlongWall| < 0.1 then (if currentAlongWall > 0 then 1 else -1)
      else inputAlongWall
    let targetVelocityX := wallTangent.x * actualSpeed * qsign targetDirection
    let targetVelocityZ := wallTangent.z * actualSpeed * qsign targetDirection
    let accel : ℚ := 0.15
    let vx := s.velocity.x + (targetVelocityX - s.velocity.x) * accel
    let vz := s.velocity.z + (targetVelocityZ - s.velocity.z) * accel
    let wallPush := Vec3.smul (-0.008) wallNormal
    let v := (⟨vx, vy, vz⟩ : Vec3).add wallPush
    let v := if inputLen > 0.8 then { v with y := v.y + 0.001 } else v
    { s with velocity := v }
  | _, _ => s

/-- CharacterController.handleWallRunning: while wall running, advance the
timer, stop on timeout or weak input, handle lost wall contact, apply the
wall-run physics and handle jump input; otherwise start a wall run at a
sufficiently vertical wall the character is moving into. -/
def handleWallRunning (s : CState) (dt : ℚ) (inputDirection : Vec3) (inputLen : ℚ)
    (env : CTickEnv) (isJumpPressed : Bool) : CState :=
  if s.isWallRunning then
    let s := { s with wallRunTimer := s.wallRunTimer + dt }
    if s.wallRunTimer ≥ s.wallRunMaxTime * 1.5 ∨ inputLen < 0.2 then stopWallRunning s
    else
      let lostContact := s.wallNormal.isSome ∧ ¬env.wallRunStillOnWall
      if lostContact then
        if isJumpPressed then (attemptLedgeGrabFromWallRun s env).1
        else stopWallRunning s
      else
        let s := applyWallRunning s dt inputDirection inputLen
        if isJumpPressed then
          let sg := attemptLedgeGrabFromWallRun s env
          if sg.2 then sg.1 else performWallJump sg.1
        else s
  else
    if inputLen < 0.4 then s
    else
      match env.wallRunStart with
      | none => s
      | some w =>
        if |w.rawNormal.y| < 0.4 then
          let velocityTowardWall := s.velocity.dot w.dir
          let inputTowardWall := inputDirection.dot w.dir
          if velocityTowardWall > 0.02 ∨ inputTowardWall > 0.2 then
            startWallRunning s w.horizUnit
          else s
        else s

/-- The ground-detection and step-up block of
CharacterController.checkFullCollision (the nine downward probes are
aggregated in the environment).  On-ground lock within 0.15 of walkable
ground with vertical velocity at most 0.05; step-up within 0.5 at horizontal
speed above 0.03 (compared via squares).  Returns the updated result, the
adjusted position and the velocity. -/
def clientGroundPhase (newPos : Vec3) (vel : Vec3) (probe : GroundProbeC)
    (res : CollisionResult) : CollisionResult × Vec3 × Vec3 :=
  if probe.found then
    let distanceToGround := newPos.y - probe.height
    let slopeAngle := probe.angleDeg
    let isWalkable := slopeAngle < 50
    let res := { res with
        slopeAngle := slopeAngle
        slopeNormal := probe.normal
        isOnSlope := decide (slopeAngle > 5)
        groundHeight := probe.height }
    let horizontalSpeedSq := vel.x * vel.x + vel.z * vel.z
    if distanceToGround ≤ 0.15 ∧ isWalkable ∧ vel.y ≤ 0.05 then
      let newPos := { newPos with y := probe.height + 0.02 }
      let vel := if vel.y ≤ 0 then { vel with y := 0 } else vel
      ({ res with isOnGround := true }, newPos, vel)
    else if 0 < distanceToGround ∧ distanceToGround ≤ 0.5 ∧ isWalkable ∧
        horizontalSpeedSq > 0.03 * 0.03 ∧ vel.y ≤ 0.05 then
      let newPos := { newPos with y := probe.height + 0.02 }
      let vel := { vel with y := max vel.y 0 }
      let vel := { vel with x := vel.x * 1.02, z := vel.z * 1.02 }
      ({ res with isOnGround := true, canStepUp := true }, newPos, vel)
    else (res, newPos, vel)
  else (res, newPos, vel)

/-- CharacterController.checkFullCollision: sweep test along the per-tick
displacement, penetration resolution, ground detection and ceiling clamp.
Returns the collision result and the velocity after its in-place mutations.
The sweep pull-back position is environment data when the pulled distance is
positive (it involves the irrational move length); the comparison of the hit
distance with the move distance is translated on squares. -/
def checkFullCollision (s : CState) (newPosition : Vec3) (env : CTickEnv) :
    CollisionResult × Vec3 :=
  let res0 : CollisionResult :=
    { isOnGround := false, isOnSlope := false, slopeAngle := 0
      slopeNormal := ⟨0, 1, 0⟩, collisionDirection := none, objectBelow := none
      adjustedPosition := newPosition, groundHeight := 0, canStepUp := false
      hitPoint := none, wallNormal := none, canGrabLedge := false
      ledgeInfo := none, hasWallCollision := false }
  let originalPosition := s.position
  let targetPosition := newPosition
  let moveVector := targetPosition.sub originalPosition
  let moveDistSq := moveVector.lengthSq
  let cvr : Vec3 × Vec3 × CollisionResult :=
    if moveDistSq > 0.001 * 0.001 then
      match env.sweep with
      | some hit =>
        if ltSqrt hit.distance moveDistSq then
          let currentPosition :=
            if hit.distance - s.radius - 0.05 ≤ 0 then originalPosition
            else hit.pulledPos
          let normal := hit.normal
          let impactSpeed := s.velocity.dot normal.neg
          let vw : Vec3 × Vec3 :=
            if impactSpeed > 0 then
              (Vec3.smul 0.6 (s.velocity.sub (Vec3.smul impactSpeed normal)),
                Vec3.smul impactSpeed normal)
            else (s.velocity, normal)
          (currentPosition, vw.1,
            { res0 with wallNormal := some vw.2, collisionDirection := some .sweep })
      else (originalPosition, s.velocity, res0)
      | none => (originalPosition, s.velocity, res0)
    else (originalPosition, s.velocity, res0)
  let newPos := cvr.1
  let vel := cvr.2.1
  let res := cvr.2.2
  let pvr : Vec3 × Vec3 × CollisionResult :=
    match env.pen with
    | none => (newPos, vel, res)
    | some p =>
      let newPos := newPos.add p.delta
      let res := { res with
          collisionDirection := some .penetration
          wallNormal := match p.wallN with | some n => some n | none => res.wallNormal }
      if p.delta.lengthSq > 0.0001 then
        let speedIntoWall := vel.dot p.normalUnit.neg
        if speedIntoWall > 0 then
          (newPos, Vec3.smul 0.6 (vel.sub (Vec3.smul speedIntoWall p.normalUnit)), res)
        else (newPos, vel, res)
      else (newPos, vel, res)
  let gnd := clientGroundPhase pvr.1 pvr.2.1 env.ground pvr.2.2
  let res := gnd.1
  let nv : Vec3 × Vec3 :=
    match env.ceilingY with
    | none => (gnd.2.1, gnd.2.2)
    | some cy =>
      let vel := if gnd.2.2.y > 0 then { gnd.2.2 with y := 0 } else gnd.2.2
      ({ gnd.2.1 with y := min gnd.2.1.y (cy - s.height - 0.02) }, vel)
  ({ res with adjustedPosition := nv.1 }, nv.2)

/-- Ticks start by zeroing the vertical velocity on the ground, running the
inline crouch block, decrementing the timers and running the crouch, sprint,
movement and ledge-grab handlers (update lines up to the movement branch). -/
def phasePre (s : CState) (tin : CTickIn) (env : CTickEnv) : CState :=
  let s := if s.isOnGround then { s with velocity := { s.velocity with y := 0 } } else s
  let s :=
    if tin.crouchPressed then
      if ¬s.isCrouching then
        { s with isCrouching := true, height := 0.9, eyeHeight := 0.7 }
      else s
    else
      if s.isCrouching then
        { s with isCrouching := false, height := 1.7, eyeHeight := 1.5 }
      else s
  let s := if s.canMantleTimer > 0 then { s with canMantleTimer := s.canMantleTimer - tin.dt } else s
  let s := { s with jumpCooldown := max 0 (s.jumpCooldown - tin.dt) }
  let s := handleCrouching s tin.crouchPressed env.slideDir
  let s := handleSprinting s tin.sprintPressed
  let s := applyMovement s tin.normInput tin.dt
  handleLedgeGrabbing s env

/-- The wall-running step of the movement branch: only taken while airborne
with nonzero input. -/
def phaseMoveWall (s : CState) (tin : CTickIn) (env : CTickEnv) : CState :=
  if ¬s.isOnGround ∧ tin.normInput.lengthSq > 0 then
    handleWallRunning s tin.dt tin.normInput tin.inputLen env tin.jumpPressed
  else s

/-- The gravity step of the movement branch. -/
def phaseMoveGrav (s : CState) (dt : ℚ) : CState :=
  if ¬s.isOnGround ∧ ¬s.isGrabbingLedge ∧ ¬s.isMantling then
    applyGravity s dt
  else s

/-- The main jump block of the movement branch: ground or coyote jump (which
runs jump(), reported by the boolean), otherwise wall jump, otherwise
ledge-grab fallback. -/
def phaseMoveJump (s : CState) (tin : CTickIn) (env : CTickEnv) : CState × Bool :=
  if tin.jumpPressed ∧ s.canJump ∧ s.jumpCooldown ≤ 0 then
    if s.isOnGround ∨ (s.groundedTimer > 0 ∧ s.groundedTimer < 0.1) then
      ({ jumpFn s with canJump := false, jumpCooldown := 0.2 }, true)
    else
      let sc := checkForWallJump s env
      if sc.2 then
        ({ performWallJump sc.1 with canJump := false, jumpCooldown := 0.2 }, false)
      else (attemptLedgeGrab sc.1 env, false)
  else (s, false)

/-- The canJump release reset at the end of the movement branch. -/
def phaseMoveRelease (s : CState) (tin : CTickIn) : CState :=
  if ¬tin.jumpPressed ∧ ¬s.canJump ∧ s.jumpCooldown ≤ 0 then { s with canJump := true }
  else s

/-- The movement branch of update: ledge movement while hanging, mantling
while mantling, and otherwise wall running, gravity, the main jump block
(ground or coyote jump, wall jump, ledge-grab fallback) and the canJump
release reset.  The boolean reports whether jump() ran here. -/
def phaseMove (s : CState) (tin : CTickIn) (env : CTickEnv) : CState × Bool :=
  if s.isGrabbingLedge then
    (handleLedgeMovement s tin.normInput tin.jumpPressed env, false)
  else if s.isMantling then (updateMantling s tin.dt, false)
  else
    let sa := phaseMoveJump (phaseMoveGrav (phaseMoveWall s tin env) tin.dt) tin env
    (phaseMoveRelease sa.1 tin, sa.2)

/-- Integration and collision adoption (update lines around the
checkFullCollision call): the candidate position is the current position
advanced by velocity times deltaTime; the adjusted position and ground flag
are adopted and the vertical velocity is zeroed when grounded. -/
def phaseCollide (s : CState) (tin : CTickIn) (env : CTickEnv) :
    CState × CollisionResult :=
  let newPosition := s.position.add (Vec3.smul tin.dt s.velocity)
  let rv := checkFullCollision s newPosition env
  let s := { s with
      velocity := rv.2
      position := rv.1.adjustedPosition
      isOnGround := rv.1.isOnGround }
  let s := if s.isOnGround then { s with velocity := { s.velocity with y := 0 } } else s
  (s, rv.1)

/-- The post-collision jump assist of update: jump even while slightly above
ground when moving fast.  The groundHeight field of CollisionResult is always
defined (it is initialised to 0), so the undefined-check of the source is
always true.  The boolean reports whether jump() ran here. -/
def phaseJumpAssist (s : CState) (tin : CTickIn) (collisionResult : CollisionResult) :
    CState × Bool :=
  if tin.jumpPressed ∧ ¬s.isJumping ∧
      (s.isOnGround ∨ s.position.y - collisionResult.groundHeight ≤ 0.25) then
    (jumpFn s, true)
  else (s, false)

/-- The wall velocity response of update: when the collision reported a wall,
remove the velocity component toward it (with the orientation the source
uses), add a small bounce-back and damp the velocity. -/
def phaseWall (s : CState) (collisionResult : CollisionResult) : CState :=
  if collisionResult.collisionDirection ≠ none then
    match collisionResult.wallNormal with
    | some wn =>
      let velocityTowardWall := s.velocity.dot wn.neg
      if velocityTowardWall > 0 then
        let wallComponent := Vec3.smul velocityTowardWall wn
        let v := s.velocity.sub wallComponent
        let v := v.add (Vec3.smul 0.02 wn)
        { s with velocity := Vec3.smul 0.8 v }
      else s
    | none => s
  else s

/-- The tail of update: stop wall running on landing, landing and
left-ground bookkeeping, and the grounded block (timer growth, vertical
velocity clamp, canJump restoration). -/
def phasePost (s : CState) (wasOnGround : Bool) (dt : ℚ) : CState :=
  let s := if s.isOnGround ∧ s.isWallRunning then stopWallRunning s else s
  let s :=
    if ¬wasOnGround ∧ s.isOnGround then onLanding s
    else if wasOnGround ∧ ¬s.isOnGround then { s with groundedTimer := 0 }
    else s
  if s.isOnGround then
    let s := { s with
        groundedTimer := s.groundedTimer + dt
        velocity := { s.velocity with y := 0 } }
    if s.groundedTimer > 0.05 ∧ s.jumpCooldown ≤ 0 then { s with canJump := true }
    else s
  else s

/-- One full tick of CharacterController.update, following the source order:
pre-zero on ground, inline crouch, timers, crouch/sprint handlers, movement,
ledge grabbing, the ledge/mantle/regular movement branch with the main jump
block, integration, full collision, position and ground adoption, the
post-collision jump assist, the wall velocity response, landing bookkeeping
and grounded-timer handling.  wasOnGround is captured from the entry state
(the steps before its capture in the source do not touch the ground flag).
The second returned component reports whether this tick executed jump() and
so set the vertical velocity to the jump force. -/
def clientStepE (s : CState) (tin : CTickIn) (env : CTickEnv) : CState × Bool :=
  let wasOnGround := s.isOnGround
  let s := phasePre s tin env
  let m := phaseMove s tin env
  let c := phaseCollide m.1 tin env
  let j := phaseJumpAssist c.1 tin c.2
  let s := phaseWall j.1 c.2
  let s := phasePost s wasOnGround tin.dt
  (s, m.2 || j.2)

/-- One client tick: its input and its raycast environment. -/
structure CTick where
  tin : CTickIn
  env : CTickEnv
deriving DecidableEq, Repr

/-- The state reached after applying a list of ticks. -/
def clientRun (s : CState) : List CTick → CState
  | [] => s
  | t :: ts => clientRun (clientStepE s t.tin t.env).1 ts

/-- The state before tick k of a trace. -/
def clientStateAt (s0 : CState) (ts : List CTick) (k : ℕ) : CState :=
  clientRun s0 (ts.take k)

/-- Whether tick k of a trace executes jump() (sets the vertical velocity to
the jump force). -/
def clientAppliedAt (s0 : CState) (ts : List CTick) (k : ℕ) : Bool :=
  match ts.get? k with
  | none => false
  | some t => (clientStepE (clientStateAt s0 ts k) t.tin t.env).2

/-! ## Server character controller (ServerCharacterController, src/unnamed/part_007) -/

/-- InputState from src/src/core/types.ts. -/
structure InputState where
  moveForward : Bool
  moveBackward : Bool
  moveLeft : Bool
  moveRight : Bool
  jump : Bool
  sprint : Bool
  crouch : Bool
  fire : Bool
  reload : Bool
  aim : Bool
deriving DecidableEq, Repr

/-- The state of one ServerCharacterController (quaternion omitted: it only
orients firing and replication). -/
structure SrvState where
  position : Vec3
  velocity : Vec3
  height : ℚ
  eyeHeight : ℚ
  radius : ℚ
  isOnGround : Bool
  isJumping : Bool
  isCrouching : Bool
  isSprinting : Bool
  canJump : Bool
  jumpCooldown : ℚ
  isWallRunning : Bool
  wallRunTimer : ℚ
  isGrabbingLedge : Bool
  isMantling : Bool
  ledgeInfo : Option LedgeInfo
  yaw : ℚ
deriving DecidableEq, Repr

/-- The ServerCharacterController constructor state. -/
def SrvState.init : SrvState :=
  { position := Vec3.zero, velocity := Vec3.zero
    height := 1.8, eyeHeight := 1.6, radius := 0.4
    isOnGround := false, isJumping := false, isCrouching := false
    isSprinting := false, canJump := true, jumpCooldown := 0
    isWallRunning := false, wallRunTimer := 0
    isGrabbingLedge := false, isMantling := false, ledgeInfo := none, yaw := 0 }

/-- ServerCharacterController.handleCrouching (GameConfig heights 1.8 and
1.2 with matching eye heights). -/
def srvHandleCrouching (s : SrvState) (isCrouchPressed : Bool) : SrvState :=
  if isCrouchPressed then { s with isCrouching := true, height := 1.2, eyeHeight := 1.0 }
  else { s with isCrouching := false, height := 1.8, eyeHeight := 1.6 }

/-- ServerCharacterController.handleSprinting. -/
def srvHandleSprinting (s : SrvState) (isSprintPressed : Bool) : SrvState :=
  { s with isSprinting := isSprintPressed ∧ ¬s.isCrouching }

/-- ServerCharacterController.applyMovement with GameConfig speeds (walk 5,
sprint 8, crouch 3, air control 0.5).  moveDirN is the normalised move
direction derived from the four direction booleans (its diagonal cases are
irrational, so it is carried as tick data). -/
def srvApplyMovement (s : SrvState) (moveDirN : Vec3) (dt : ℚ) : SrvState :=
  let speed : ℚ := if s.isSprinting then 8 else if s.isCrouching then 3 else 5
  if s.isOnGround then
    { s with velocity := { s.velocity with x := moveDirN.x * speed, z := moveDirN.z * speed } }
  else
    let airVelocity := Vec3.smul (speed * 0.5) moveDirN
    { s with velocity := { s.velocity with
        x := s.velocity.x + airVelocity.x * dt
        z := s.velocity.z + airVelocity.z * dt } }

/-- ServerCharacterController.handleLedgeGrabbing. -/
def srvHandleLedgeGrabbing (s : SrvState) (result : CollisionResult)
    (isJumpPressed : Bool) : SrvState :=
  if result.canGrabLedge ∧ isJumpPressed then
    { s with isGrabbingLedge := true, velocity := Vec3.zero, ledgeInfo := result.ledgeInfo }
  else s

/-- ServerCharacterController.handleWallRunning.  The hasWallCollision field
it reads is never set by checkCollision, so the wall-run branch is inert; it
is translated as written. -/
def srvHandleWallRunning (s : SrvState) (result : CollisionResult) (dt : ℚ) : SrvState :=
  if ¬s.isOnGround ∧ result.hasWallCollision ∧ s.wallRunTimer > 0 then
    { s with isWallRunning := true
             velocity := { s.velocity with y := 0 }
             wallRunTimer := s.wallRunTimer - dt }
  else { s with isWallRunning := false }

/-- ServerCharacterController.jump: vertical velocity set to the GameConfig
jump force 16, canJump cleared, half-second cooldown. -/
def srvJump (s : SrvState) : SrvState :=
  { s with velocity := { s.velocity with y := 16 }
           isJumping := true, canJump := false, jumpCooldown := 0.5 }

/-- One tick of data for the server controller: deltaTime, the latched input,
the separately passed jump flag, the normalised move direction, the collision
probe data and the horizontal ray ring. -/
structure SrvTick where
  dt : ℚ
  input : InputState
  jump : Bool
  moveDirN : Vec3
  orc : CollisionOracle
  dirs : List Vec3
deriving DecidableEq, Repr

/-- One tick of ServerCharacterController.update over a collider list.
checkCollision receives the position (mutated in place, hence adopted) and a
clone of the velocity scaled by deltaTime (whose in-place mutations are
discarded).  Returns the new state, the updated colliders and whether this
tick executed jump(). -/
def srvStepE (s : SrvState) (objects : List Collider) (t : SrvTick) :
    SrvState × List Collider × Bool :=
  let s := { s with jumpCooldown := max 0 (s.jumpCooldown - t.dt) }
  let s := srvHandleCrouching s t.input.crouch
  let s := srvHandleSprinting s t.input.sprint
  let s := srvApplyMovement s t.moveDirN t.dt
  let forward : Vec3 := ⟨0, 0, -1⟩
  let out := checkCollision s.position objects forward (Vec3.smul t.dt s.velocity)
      s.height s.radius t.orc t.dirs
  let s := { s with position := out.position, isOnGround := out.result.isOnGround }
  let s :=
    if s.isOnGround then
      { s with velocity := { s.velocity with y := 0 }
               isJumping := false, isWallRunning := false, wallRunTimer := 0 }
    else { s with velocity := { s.velocity with y := s.velocity.y - 9.81 * t.dt } }
  let s := srvHandleLedgeGrabbing s out.result t.jump
  let s := srvHandleWallRunning s out.result t.dt
  let sa : SrvState × Bool :=
    if t.jump ∧ s.canJump ∧ s.isOnGround then (srvJump s, true) else (s, false)
  let s := { sa.1 with position := sa.1.position.add (Vec3.smul t.dt sa.1.velocity) }
  (s, out.objects, sa.2)

/-- Runs a list of server ticks, threading state and colliders. -/
def srvRun (s : SrvState) (objects : List Collider) : List SrvTick → SrvState × List Collider
  | [] => (s, objects)
  | t :: ts =>
      let r := srvStepE s objects t
      srvRun r.1 r.2.1 ts

/-- The state and colliders before tick k of a server trace. -/
def srvStateAt (s0 : SrvState) (objects : List Collider) (ts : List SrvTick) (k : ℕ) :
    SrvState × List Collider :=
  srvRun s0 objects (ts.take k)

/-- Whether tick k of a server trace executes jump(). -/
def srvAppliedAt (s0 : SrvState) (objects : List Collider) (ts : List SrvTick) (k : ℕ) :
    Bool :=
  match ts.get? k with
  | none => false
  | some t =>
      let so := srvStateAt s0 objects ts k
      (srvStepE so.1 so.2 t).2.2

/-! ## Server connection handling (src/src/server/server-game.ts) -/

/-- The fixed spawn point list of ServerGame. -/
def spawnPoints : List Vec3 :=
  [⟨-20, 1.5, 0⟩, ⟨20, 1.5, 0⟩, ⟨0, 1.5, -20⟩, ⟨0, 1.5, 20⟩]

/-- Connection-handling state of ServerGame: the id counter, the round-robin
spawn index and the player roster in insertion order (each entry the numeric
id and the controller position). -/
structure SrvGameConn where
  nextPlayerId : ℕ
  currentSpawnPointIndex : ℕ
  players : List (ℕ × Vec3)
deriving DecidableEq, Repr

/-- The initial connection state of a fresh ServerGame. -/
def SrvGameConn.start : SrvGameConn :=
  { nextPlayerId := 0, currentSpawnPointIndex := 0, players := [] }

/-- The init message sent to a connecting client: its id and the full current
roster snapshot (ids with positions).  The template literal player prefix of
the id string is dropped; ids are the numeric counter values. -/
structure InitMsg where
  playerId : ℕ
  initialPosition : Vec3
  roster : List (ℕ × Vec3)
deriving DecidableEq, Repr

/-- The connection handler of ServerGame: allocate the next id, place a fresh
controller at the current round-robin spawn point, advance the index modulo
the list length, insert the player into the roster, and build the init
message from the id and the roster snapshot taken after insertion. -/
def connectStep (g : SrvGameConn) : SrvGameConn × InitMsg :=
  let playerId := g.nextPlayerId
  let spawnPoint := spawnPoints.getD g.currentSpawnPointIndex Vec3.zero
  let players := g.players ++ [(playerId, spawnPoint)]
  ({ nextPlayerId := playerId + 1
     currentSpawnPointIndex := (g.currentSpawnPointIndex + 1) % spawnPoints.length
     players },
   { playerId, initialPosition := spawnPoint, roster := players })

/-- The close handler: remove the player from the roster. -/
def disconnectStep (g : SrvGameConn) (id : ℕ) : SrvGameConn :=
  { g with players := g.players.filter (fun p => p.1 ≠ id) }

/-- A connection-level event. -/
inductive ConnEvent where
  | connect
  | disconnect (id : ℕ)
deriving DecidableEq, Repr

/-- Runs the connection events, collecting the init messages in order. -/
def runConn (g : SrvGameConn) : List ConnEvent → SrvGameConn × List InitMsg
  | [] => (g, [])
  | .connect :: evs =>
      let gm := connectStep g
      let r := runConn gm.1 evs
      (r.1, gm.2 :: r.2)
  | .disconnect id :: evs => runConn (disconnectStep g id) evs

/-! MARKER_DEFS_END -/

/-! ### Weapon system lemmas -/

namespace WeaponSys

lemma startReload_currentWeapon (s : WeaponSys) (now : ℚ) :
    (s.startReload now).currentWeapon = s.currentWeapon := by
  simp only [startReload]
  split
  · rfl
  · split <;> rfl

lemma startReload_ammo (s : WeaponSys) (now : ℚ) :
    (s.startReload now).weaponState.currentAmmo = s.weaponState.currentAmmo := by
  simp only [startReload]
  split
  · rfl
  · split <;> rfl

lemma startReload_lastFire (s : WeaponSys) (now : ℚ) :
    (s.startReload now).weaponState.lastFireTime = s.weaponState.lastFireTime := by
  simp only [startReload]
  split
  · rfl
  · split <;> rfl

lemma fire_snd_currentWeapon (s : WeaponSys) (now : ℚ) :
    ((s.fire now).2).currentWeapon = s.currentWeapon := by
  simp only [fire]
  split
  · rfl
  · dsimp only
    split
    · rw [startReload_currentWeapon]
    · rfl

lemma fire_rejected (s : WeaponSys) (now : ℚ)
    (h : s.weaponState.isReloading = true ∨ s.weaponState.currentAmmo ≤ 0 ∨
      now - s.weaponState.lastFireTime < 60000 / (WEAPON_CONFIGS s.currentWeapon).fireRate) :
    s.fire now = (false, s) := by
  simp only [fire]
  rw [if_pos]
  rcases h with h | h | h
  · exact Or.inl (by simp [h])
  · exact Or.inr (Or.inl h)
  · exact Or.inr (Or.inr h)

lemma fire_accepted_gate (s : WeaponSys) (now : ℚ) (h : (s.fire now).1 = true) :
    s.weaponState.lastFireTime + 60000 / (WEAPON_CONFIGS s.currentWeapon).fireRate ≤ now := by
  simp only [fire] at h
  split at h
  · simp at h
  · next hg =>
    push_neg at hg
    linarith [hg.2.2]

lemma fire_accepted_lastFire (s : WeaponSys) (now : ℚ) (h : (s.fire now).1 = true) :
    ((s.fire now).2).weaponState.lastFireTime = now := by
  simp only [fire]
  simp only [fire] at h
  split at h
  · simp at h
  · next hg =>
    rw [if_neg hg]
    dsimp only
    split
    · rw [startReload_lastFire]
    · rfl

lemma fire_rejected_eq (s : WeaponSys) (now : ℚ) (h : (s.fire now).1 = false) :
    (s.fire now).2 = s := by
  simp only [fire] at h ⊢
  split at h
  · next hg => rw [if_pos hg]
  · simp at h

lemma update_currentWeapon (s : WeaponSys) (now : ℚ) :
    (s.update now).currentWeapon = s.currentWeapon := by
  simp only [update, finishReload]
  split <;> split <;> (try split) <;> simp [fire_snd_currentWeapon]

lemma finishReload_lastFire (s : WeaponSys) :
    (s.finishReload).weaponState.lastFireTime = s.weaponState.lastFireTime := rfl

lemma update_lastFire_of_not_fired (s : WeaponSys) (now : ℚ)
    (h : ¬(s.isFiring = true ∧ (s.fire now).1 = true)) :
    (s.update now).weaponState.lastFireTime = s.weaponState.lastFireTime := by
  simp only [update]
  by_cases hf : s.isFiring = true
  · have hrej : (s.fire now).1 = false := by
      rcases Bool.eq_false_or_eq_true (s.fire now).1 with h1 | h1
      · exact absurd ⟨hf, h1⟩ h
      · exact h1
    rw [if_pos hf, fire_rejected_eq s now hrej]
    split
    · split
      · rw [finishReload_lastFire]
      · rfl
    · rfl
  · rw [if_neg hf]
    split
    · split
      · rw [finishReload_lastFire]
      · rfl
    · rfl

lemma update_lastFire_of_fired (s : WeaponSys) (now : ℚ)
    (hf : s.isFiring = true) (h : (s.fire now).1 = true) :
    (s.update now).weaponState.lastFireTime = now := by
  simp only [update, finishReload]
  rw [if_pos hf]
  have hl := fire_accepted_lastFire s now h
  split
  · split
    · simpa using hl
    · exact hl
  · exact hl

lemma startReload_isReloading_of (s : WeaponSys) (now : ℚ)
    (h : s.weaponState.isReloading = true) : s.startReload now = s := by
  simp [startReload, h]

lemma startReload_weapon_fields (s : WeaponSys) (now : ℚ) :
    (s.startReload now).isFiring = s.isFiring := by
  simp only [startReload]
  split
  · rfl
  · split <;> rfl

lemma setFiring_state (s : WeaponSys) (b : Bool) :
    (s.setFiring b).weaponState = s.weaponState ∧ (s.setFiring b).currentWeapon = s.currentWeapon :=
  ⟨rfl, rfl⟩

/-- The magazine size of every weapon profile is a natural number. -/
lemma mag_nat (w : WeaponType) : ∃ n : ℕ, (WEAPON_CONFIGS w).magazineSize = (n : ℚ) := by
  cases w
  · exact ⟨30, by norm_num [WEAPON_CONFIGS]⟩
  · exact ⟨12, by norm_num [WEAPON_CONFIGS]⟩
  · exact ⟨5, by norm_num [WEAPON_CONFIGS]⟩
  · exact ⟨25, by norm_num [WEAPON_CONFIGS]⟩

/-- Strengthened ammo invariant: the ammo count is a natural number bounded
by the magazine size of the current weapon. -/
def ammoInv (s : WeaponSys) : Prop :=
  ∃ n : ℕ, s.weaponState.currentAmmo = (n : ℚ) ∧
    (n : ℚ) ≤ (WEAPON_CONFIGS s.currentWeapon).magazineSize

lemma ammoInv_startReload (s : WeaponSys) (now : ℚ) (h : ammoInv s) :
    ammoInv (s.startReload now) := by
  rcases h with ⟨n, hn, hle⟩
  exact ⟨n, by rw [startReload_ammo, hn], by rw [startReload_currentWeapon]; exact hle⟩

lemma ammoInv_fire (s : WeaponSys) (now : ℚ) (h : ammoInv s) :
    ammoInv ((s.fire now).2) := by
  rcases h with ⟨n, hn, hle⟩
  simp only [fire]
  split
  · exact ⟨n, hn, hle⟩
  · next hg =>
    push_neg at hg
    have hpos : (0 : ℚ) < (n : ℚ) := by rw [← hn]; exact hg.2.1
    have hn1 : 1 ≤ n := by exact_mod_cast hpos
    have hsub : ((n - 1 : ℕ) : ℚ) = (n : ℚ) - 1 := by push_cast [hn1]; ring
    have hle1 : ((n - 1 : ℕ) : ℚ) ≤ (WEAPON_CONFIGS s.currentWeapon).magazineSize := by
      rw [hsub]; linarith
    dsimp only
    split
    · exact ammoInv_startReload _ now ⟨n - 1, by simp [hsub, hn], hle1⟩
    · exact ⟨n - 1, by simp [hsub, hn], hle1⟩

lemma ammoInv_finishReload (s : WeaponSys) : ammoInv s.finishReload := by
  rcases mag_nat s.currentWeapon with ⟨n, hn⟩
  exact ⟨n, by simp [finishReload, hn], by simp [finishReload, hn]⟩

lemma ammoInv_update (s : WeaponSys) (now : ℚ) (h : ammoInv s) :
    ammoInv (s.update now) := by
  simp only [update]
  split
  · split
    · split
      · exact ammoInv_finishReload _
      · exact ammoInv_fire s now h
    · exact ammoInv_fire s now h
  · split
    · split
      · exact ammoInv_finishReload _
      · exact h
    · exact h

lemma ammoInv_switch (s : WeaponSys) (t : WeaponType) (h : ammoInv s) :
    ammoInv (s.switchWeapon t) := by
  simp only [switchWeapon]
  split
  · exact h
  · rcases mag_nat t with ⟨n, hn⟩
    exact ⟨n, by simp [hn], by simp [hn]⟩

lemma ammoInv_op (s : WeaponSys) (op : WOp) (h : ammoInv s) : ammoInv (op.apply s) := by
  cases op with
  | fireOp now => exact ammoInv_fire s now h
  | updateOp now => exact ammoInv_update s now h
  | startReloadOp now => exact ammoInv_startReload s now h
  | setFiringOp b => exact h
  | switchOp t => exact ammoInv_switch s t h

lemma ammoInv_run : ∀ (ops : List WOp) (s : WeaponSys), ammoInv s → ammoInv (runWOps s ops)
  | [], s, h => h
  | op :: ops, s, h => ammoInv_run ops (op.apply s) (ammoInv_op s op h)

lemma ammoInv_init : ammoInv WeaponSys.init :=
  ⟨30, by norm_num [WeaponSys.init, WEAPON_CONFIGS], by norm_num [WeaponSys.init, WEAPON_CONFIGS]⟩

/-- Every weapon profile has a positive fire rate, so the enforced
shot interval is nonnegative. -/
lemma fireInterval_pos (w : WeaponType) : 0 < 60000 / (WEAPON_CONFIGS w).fireRate := by
  cases w <;> norm_num [WEAPON_CONFIGS]

lemma wop_preserves_weapon (s : WeaponSys) (op : WOp) (hns : op.isSwitch = false) :
    (op.apply s).currentWeapon = s.currentWeapon := by
  cases op with
  | fireOp now => exact fire_snd_currentWeapon s now
  | updateOp now => exact update_currentWeapon s now
  | startReloadOp now => exact startReload_currentWeapon s now
  | setFiringOp b => rfl
  | switchOp t => simp [WOp.isSwitch] at hns

/-- Key chain lemma for the client fire gate: along any switch-free operation
sequence, the accepted fire timestamps form a chain anchored at the current
lastFireTime in which consecutive entries are separated by at least the
enforced interval of the (fixed) current weapon. -/
lemma acceptedFires_chain (w : WeaponType) :
    ∀ (ops : List WOp) (s : WeaponSys), s.currentWeapon = w →
      (∀ op ∈ ops, op.isSwitch = false) →
      List.Chain (fun a b => a + 60000 / (WEAPON_CONFIGS w).fireRate ≤ b)
        s.weaponState.lastFireTime (acceptedFires s ops)
  | [], s, _, _ => List.Chain.nil
  | .fireOp now :: ops, s, hw, hns => by
      simp only [acceptedFires]
      have hops : ∀ op ∈ ops, op.isSwitch = false := fun op h => hns op (List.mem_cons_of_mem _ h)
      split
      · next hf =>
        refine List.Chain.cons ?_ ?_
        · rw [← hw]; exact fire_accepted_gate s now hf
        · have := acceptedFires_chain w ops ((s.fire now).2)
            (by rw [fire_snd_currentWeapon, hw]) hops
          rwa [fire_accepted_lastFire s now hf] at this
      · next hf =>
        have hrej : (s.fire now).2 = s := by
          rcases Bool.eq_false_or_eq_true (s.fire now).1 with h1 | h1
          · exact absurd h1 hf
          · exact fire_rejected_eq s now h1
        rw [hrej]
        exact acceptedFires_chain w ops s hw hops
  | .updateOp now :: ops, s, hw, hns => by
      simp only [acceptedFires]
      have hops : ∀ op ∈ ops, op.isSwitch = false := fun op h => hns op (List.mem_cons_of_mem _ h)
      have hch : List.Chain (fun a b => a + 60000 / (WEAPON_CONFIGS w).fireRate ≤ b)
          ((s.update now).weaponState.lastFireTime) (acceptedFires (s.update now) ops) :=
        acceptedFires_chain w ops (s.update now) (by rw [update_currentWeapon, hw]) hops
      split
      · next hf =>
        refine List.Chain.cons ?_ ?_
        · rw [← hw]; exact fire_accepted_gate s now hf.2
        · rwa [update_lastFire_of_fired s now hf.1 hf.2] at hch
      · next hf =>
        rwa [update_lastFire_of_not_fired s now hf] at hch
  | .startReloadOp now :: ops, s, hw, hns => by
      simp only [acceptedFires, WOp.apply]
      have hch := acceptedFires_chain w ops (s.startReload now)
        (by rw [startReload_currentWeapon, hw])
        (fun op h => hns op (List.mem_cons_of_mem _ h))
      rwa [startReload_lastFire] at hch
  | .setFiringOp b :: ops, s, hw, hns => by
      simp only [acceptedFires, WOp.apply]
      exact acceptedFires_chain w ops (s.setFiring b) hw
        (fun op h => hns op (List.mem_cons_of_mem _ h))
  | .switchOp t :: ops, s, hw, hns => by
      have := hns (.switchOp t) (List.mem_cons_self _ _)
      simp [WOp.isSwitch] at this

/-- A chain whose relation is a nonnegative-gap separation is pairwise. -/
lemma chain_sep_pairwise {gap : ℚ} (hgap : 0 ≤ gap) :
    ∀ {l : List ℚ} {a : ℚ}, List.Chain (fun x y => x + gap ≤ y) a l →
      List.Pairwise (fun x y => x + gap ≤ y) l := by
  have : IsTrans ℚ (fun x y => x + gap ≤ y) := ⟨fun a b c hab hbc => by linarith⟩
  intro l a h
  exact (List.chain_iff_pairwise.mp h).of_cons

/-- Chain lemma for the server fire gate. -/
lemma serverAcceptedFires_chain (fireRate : ℚ) :
    ∀ (ticks : List (ℚ × Bool)) (lastFireTime : ℚ),
      List.Chain (fun a b => a + 60000 / fireRate ≤ b) lastFireTime
        (serverAcceptedFires fireRate lastFireTime ticks)
  | [], _ => List.Chain.nil
  | (now, fire) :: ticks, lastFireTime => by
      simp only [serverAcceptedFires]
      split
      · next hacc =>
        refine List.Chain.cons ?_ (serverAcceptedFires_chain fireRate ticks now)
        have h := hacc.2
        have : (1000 : ℚ) / (fireRate / 60) = 60000 / fireRate := by
          rw [div_div_eq_mul_div]; norm_num
        rw [this] at h
        linarith
      · exact serverAcceptedFires_chain fireRate ticks lastFireTime

/-- A weapon state mid-reload with 5 rounds, reload started at time 0
(assault rifle, reloadTime 2500 in the profile). -/
def reloadingAR : WeaponSys :=
  { currentWeapon := .assaultRifle
    weaponState :=
      { currentAmmo := 5, isReloading := true, lastFireTime := 0, reloadStartTime := 0 }
    isFiring := false }

/-- C3: the weapon profile documents reloadTime in milliseconds (assault
rifle 2500), and the claim says the reload completes on the first update at
least reloadTime milliseconds after reloadStartTime.  The code multiplies
reloadTime by 1000 before comparing, so an update 2500 ms after the reload
started (and even one 2499999 ms after) leaves the weapon reloading, and the
reload only completes 2500000 ms after the start, when the ammo is restored
to the full magazine.  This evaluates the embedded update at the failing
input, exhibiting the divergence. -/
theorem C3_reload_gate_behavior :
    (reloadingAR.update 2500).weaponState.isReloading = true ∧
    (reloadingAR.update 2499999).weaponState.isReloading = true ∧
    (reloadingAR.update 2500000).weaponState.isReloading = false ∧
    (reloadingAR.update 2500000).weaponState.currentAmmo =
      (WEAPON_CONFIGS .assaultRifle).magazineSize := by
  refine ⟨?_, ?_, ?_, ?_⟩ <;> decide

/-- C4: accepted fire events are separated by at least 60000 divided by the
profile fire rate (rounds per minute).  First conjunct: for the client
WeaponSystem, along any switch-free operation sequence (a switch replaces the
weapon instance), any two accepted fire timestamps, in order of acceptance,
are separated by at least the interval of the current weapon.  Second
conjunct: the same for the per-player fire gate of the server tick loop with
any positive fire rate (its gate 1000 / (fireRate / 60) equals
60000 / fireRate). -/
theorem C4_fire_rate_bound :
    (∀ (s : WeaponSys) (ops : List WOp), (∀ op ∈ ops, op.isSwitch = false) →
      List.Pairwise
        (fun a b => a + 60000 / (WEAPON_CONFIGS s.currentWeapon).fireRate ≤ b)
        (acceptedFires s ops)) ∧
    (∀ (fireRate lastFireTime : ℚ) (ticks : List (ℚ × Bool)), 0 < fireRate →
      List.Pairwise (fun a b => a + 60000 / fireRate ≤ b)
        (serverAcceptedFires fireRate lastFireTime ticks)) := by
  constructor
  · intro s ops hns
    exact chain_sep_pairwise (le_of_lt (fireInterval_pos s.currentWeapon))
      (acceptedFires_chain s.currentWeapon ops s rfl hns)
  · intro fireRate lastFireTime ticks hr
    have : (0 : ℚ) < 60000 / fireRate := by positivity
    exact chain_sep_pairwise (le_of_lt this)
      (serverAcceptedFires_chain fireRate ticks lastFireTime)

/-- Witness for C4 at concrete inputs: three client fire requests at 100000,
100050 and 100100 ms on the fresh assault rifle (interval 100 ms; the middle
one is rejected), and three server ticks at 1000, 1050 and 1200 ms with fire
latched at rate 600. -/
theorem C4_fire_rate_bound_witness :
    ((∀ op ∈ [WOp.fireOp 100000, WOp.fireOp 100050, WOp.fireOp 100100],
        op.isSwitch = false) ∧
      List.Pairwise
        (fun a b => a + 60000 / (WEAPON_CONFIGS WeaponSys.init.currentWeapon).fireRate ≤ b)
        (acceptedFires WeaponSys.init
          [WOp.fireOp 100000, WOp.fireOp 100050, WOp.fireOp 100100])) ∧
    ((0 : ℚ) < 600 ∧
      List.Pairwise (fun a b => a + 60000 / 600 ≤ b)
        (serverAcceptedFires 600 0 [(1000, true), (1050, true), (1200, true)])) :=
  ⟨⟨by decide, C4_fire_rate_bound.1 WeaponSys.init _ (by decide)⟩,
    ⟨by norm_num, C4_fire_rate_bound.2 600 0 _ (by norm_num)⟩⟩

/-- C5: starting from the constructor state, every operation sequence (fire,
update, reload, firing latch, weapon switch) keeps the ammo within 0 and the
magazine size of the current weapon, and fire is rejected with no state
change whenever the magazine is empty or a reload is in progress. -/
theorem C5_ammo_invariant (ops : List WOp) :
    (0 ≤ (runWOps WeaponSys.init ops).weaponState.currentAmmo ∧
      (runWOps WeaponSys.init ops).weaponState.currentAmmo ≤
        (WEAPON_CONFIGS (runWOps WeaponSys.init ops).currentWeapon).magazineSize) ∧
    (∀ now : ℚ,
      (runWOps WeaponSys.init ops).weaponState.currentAmmo = 0 ∨
        (runWOps WeaponSys.init ops).weaponState.isReloading = true →
      (runWOps WeaponSys.init ops).fire now = (false, runWOps WeaponSys.init ops)) := by
  have hinv := ammoInv_run ops WeaponSys.init ammoInv_init
  rcases hinv with ⟨n, hn, hle⟩
  constructor
  · exact ⟨by rw [hn]; positivity, by rw [hn]; exact hle⟩
  · intro now h
    refine WeaponSys.fire_rejected _ now ?_
    rcases h with h | h
    · exact Or.inr (Or.inl (le_of_eq h))
    · exact Or.inl h

/-- Witness for C5: firing once at 100000 ms and then requesting a reload
leaves a mid-reload state in which a fire request at 100050 is rejected
unchanged, and the ammo bound holds. -/
theorem C5_ammo_invariant_witness :
    ((0 ≤ (runWOps WeaponSys.init [WOp.fireOp 100000, WOp.startReloadOp 100001]).weaponState.currentAmmo ∧
        (runWOps WeaponSys.init [WOp.fireOp 100000, WOp.startReloadOp 100001]).weaponState.currentAmmo ≤
          (WEAPON_CONFIGS (runWOps WeaponSys.init
            [WOp.fireOp 100000, WOp.startReloadOp 100001]).currentWeapon).magazineSize)) ∧
    ((runWOps WeaponSys.init [WOp.fireOp 100000, WOp.startReloadOp 100001]).weaponState.isReloading = true ∧
      (runWOps WeaponSys.init [WOp.fireOp 100000, WOp.startReloadOp 100001]).fire 100050 =
        (false, runWOps WeaponSys.init [WOp.fireOp 100000, WOp.startReloadOp 100001])) :=
  ⟨(C5_ammo_invariant [WOp.fireOp 100000, WOp.startReloadOp 100001]).1,
    ⟨by decide,
      (C5_ammo_invariant [WOp.fireOp 100000, WOp.startReloadOp 100001]).2 100050
        (Or.inr (by decide))⟩⟩

/-- C8: startReload is idempotent.  Calling it while already reloading
returns the state unchanged (reloadStartTime included); calling it with a
full magazine returns the state unchanged; and a second call is always
absorbed by the first. -/
theorem C8_startReload_idempotent (s : WeaponSys) (t1 t2 : ℚ) :
    (s.weaponState.isReloading = true → s.startReload t1 = s) ∧
    (s.weaponState.currentAmmo = (WEAPON_CONFIGS s.currentWeapon).magazineSize →
      s.startReload t1 = s) ∧
    (s.startReload t1).startReload t2 = s.startReload t1 := by
  refine ⟨fun h => WeaponSys.startReload_isReloading_of s t1 h, fun h => ?_, ?_⟩
  · simp [WeaponSys.startReload, h]
  · by_cases hr : s.weaponState.isReloading = true
    · simp [WeaponSys.startReload, hr]
    · by_cases ha : s.weaponState.currentAmmo = (WEAPON_CONFIGS s.currentWeapon).magazineSize
      · simp [WeaponSys.startReload, hr, ha]
      · simp [WeaponSys.startReload, hr, ha]

/-- Witness for C8 at concrete states: the mid-reload assault rifle absorbs a
reload request, and the fresh full-magazine weapon absorbs one too. -/
theorem C8_startReload_idempotent_witness :
    reloadingAR.startReload 99 = reloadingAR ∧
    WeaponSys.init.startReload 99 = WeaponSys.init :=
  ⟨(C8_startReload_idempotent reloadingAR 99 0).1 (by decide),
    (C8_startReload_idempotent WeaponSys.init 99 0).2.1 (by decide)⟩

/-- C10: switching to a different weapon replaces the whole weapon state:
full magazine of the new weapon, reload cleared, lastFireTime and
reloadStartTime zeroed.  Hence switching away and back yields a full
magazine with no reload in progress and no fire-rate wait. -/
theorem C10_switch_replaces_state (s : WeaponSys) (t : WeaponType)
    (h : t ≠ s.currentWeapon) :
    s.switchWeapon t =
      { currentWeapon := t
        weaponState :=
          { currentAmmo := (WEAPON_CONFIGS t).magazineSize
            isReloading := false
            lastFireTime := 0
            reloadStartTime := 0 }
        isFiring := s.isFiring } ∧
    ((s.switchWeapon t).switchWeapon s.currentWeapon).weaponState.currentAmmo =
      (WEAPON_CONFIGS s.currentWeapon).magazineSize ∧
    ((s.switchWeapon t).switchWeapon s.currentWeapon).weaponState.isReloading = false ∧
    ((s.switchWeapon t).switchWeapon s.currentWeapon).weaponState.lastFireTime = 0 := by
  have h1 : ¬ s.currentWeapon = t := fun he => h he.symm
  constructor
  · simp [WeaponSys.switchWeapon, h1, h]
  · simp [WeaponSys.switchWeapon, h1, h]

/-- Witness for C10: switching the fresh assault rifle mid-state to the
pistol. -/
theorem C10_switch_replaces_state_witness :
    reloadingAR.switchWeapon .pistol =
      { currentWeapon := .pistol
        weaponState :=
          { currentAmmo := (WEAPON_CONFIGS .pistol).magazineSize
            isReloading := false
            lastFireTime := 0
            reloadStartTime := 0 }
        isFiring := reloadingAR.isFiring } :=
  (C10_switch_replaces_state reloadingAR .pistol (by decide)).1

end WeaponSys

/-! ### Collision system lemmas (C6, C7) -/

lemma setCollider_get_ne : ∀ (cs : List Collider) (n m : ℕ) (c : Collider), m ≠ n →
    (setCollider cs n c).get? m = cs.get? m
  | [], _, _, _, _ => rfl
  | _ :: _, 0, 0, _, h => absurd rfl h
  | _ :: _, 0, _ + 1, _, _ => rfl
  | _ :: _, _ + 1, 0, _, _ => rfl
  | _ :: cs, n + 1, m + 1, c, h =>
      setCollider_get_ne cs n m c fun he => h (congrArg Nat.succ he)

lemma horizHitStep_objects (objBelow : Option ℕ) (rayDistance : ℚ) (dir : Vec3)
    (st : HorizState) (h : HorizHit) (k : ℕ) (o : Collider)
    (hk : st.objects.get? k = some o) (hm : o.isMovable = false) :
    (horizHitStep objBelow rayDistance dir st h).objects.get? k = some o := by
  simp only [horizHitStep]
  by_cases h1 : (some h.objIdx = objBelow ∧ h.pointY < st.position.y + 0.4)
  · rw [if_pos h1]
    exact hk
  · rw [if_neg h1]
    cases hobj : st.objects.get? h.objIdx with
    | none => exact hk
    | some obj =>
      dsimp only
      by_cases h2 : obj.nonCollidable = true
      · rw [if_pos h2]
        exact hk
      · rw [if_neg h2]
        dsimp only
        by_cases h3 : obj.isMovable = true
        · have hne : k ≠ h.objIdx := by
            intro he
            subst he
            rw [hk] at hobj
            cases hobj
            rw [hm] at h3
            exact Bool.false_ne_true h3
          rw [if_pos h3, setCollider_get_ne _ _ _ _ hne]
          exact hk
        · rw [if_neg h3]
          exact hk

lemma horizRow_objects (objBelow : Option ℕ) (rayDistance : ℚ) :
    ∀ (hs : List (Option HorizHit)) (ds : List Vec3) (st : HorizState) (k : ℕ) (o : Collider),
      st.objects.get? k = some o → o.isMovable = false →
      (horizRow objBelow rayDistance hs ds st).objects.get? k = some o
  | [], _, _, _, _, hk, _ => hk
  | _ :: _, [], _, _, _, hk, _ => by
      simp only [horizRow]
      exact hk
  | none :: hs, _ :: ds, st, k, o, hk, hm =>
      horizRow_objects objBelow rayDistance hs ds st k o hk hm
  | some h :: hs, d :: ds, st, k, o, hk, hm =>
      horizRow_objects objBelow rayDistance hs ds _ k o
        (horizHitStep_objects objBelow rayDistance d st h k o hk hm) hm

lemma horizGrid_objects (objBelow : Option ℕ) (rayDistance : ℚ) (dirs : List Vec3) :
    ∀ (rows : List (List (Option HorizHit))) (st : HorizState) (k : ℕ) (o : Collider),
      st.objects.get? k = some o → o.isMovable = false →
      (horizGrid objBelow rayDistance dirs rows st).objects.get? k = some o
  | [], _, _, _, hk, _ => hk
  | row :: rows, st, k, o, hk, hm =>
      horizGrid_objects objBelow rayDistance dirs rows _ k o
        (horizRow_objects objBelow rayDistance row dirs st k o hk hm) hm

lemma checkForLedges_objects (objects : List Collider) (orc : CollisionOracle)
    (result : CollisionResult) :
    checkForLedges objects orc result = checkForLedges objects orc result := rfl

/-- C6: checkCollision does mutate movable colliders (the claim that all
colliders are left unchanged fails there), but every collider not tagged
movable is left exactly as it was, whatever the inputs and probe results. -/
theorem C6_non_movable_colliders_unchanged (position : Vec3) (objects : List Collider)
    (cameraDirection playerVelocity : Vec3) (playerHeight playerRadius : ℚ)
    (orc : CollisionOracle) (dirs : List Vec3) (k : ℕ) (o : Collider)
    (hk : objects.get? k = some o) (hm : o.isMovable = false) :
    (checkCollision position objects cameraDirection playerVelocity
        playerHeight playerRadius orc dirs).objects.get? k = some o := by
  simp only [checkCollision]
  split
  · exact hk
  · exact horizGrid_objects _ _ _ _ _ _ _ hk hm

/-- A movable crate: mass 2, sitting at x = 5. -/
def movableBox : Collider :=
  { position := ⟨5, 0, 0⟩, nonCollidable := false, isMovable := true
    mass := 2, nonClimbable := false }

/-- The same crate tagged non-movable. -/
def staticBox : Collider :=
  { position := ⟨5, 0, 0⟩, nonCollidable := false, isMovable := false
    mass := 2, nonClimbable := false }

/-- Probe results of a single horizontal ray (direction (1,0,0)) hitting the
crate 0.3 units away, wall normal (-1,0,0); no ground or ledge hits. -/
def pushOracle : CollisionOracle :=
  { groundHits := []
    horizHits := [[some { distance := 0.3, pointY := 5, objIdx := 0, normalH := ⟨-1, 0, 0⟩ }]]
    ledgeHit := none
    aboveHit := none }

/-- Counterexample to C6 as claimed: a checkCollision call whose collider set
holds one movable crate returns the crate moved 0.02 units in x (the push
impulse 0.04 / mass 2 times horizontal speed 1), so the collider set is not
left unchanged. -/
theorem C6_counterexample :
    (checkCollision ⟨0, 1, 0⟩ [movableBox] ⟨0, 0, 1⟩ ⟨1, 0, 0⟩ 1.8 0.5
        pushOracle [⟨1, 0, 0⟩]).objects =
      [{ movableBox with position := ⟨5.02, 0, 0⟩ }] ∧
    ({ movableBox with position := ⟨5.02, 0, 0⟩ } : Collider) ≠ movableBox := by
  decide

/-- Witness for C6: the same call against the non-movable crate leaves it in
place. -/
theorem C6_non_movable_colliders_unchanged_witness :
    (checkCollision ⟨0, 1, 0⟩ [staticBox] ⟨0, 0, 1⟩ ⟨1, 0, 0⟩ 1.8 0.5
        pushOracle [⟨1, 0, 0⟩]).objects.get? 0 = some staticBox :=
  C6_non_movable_colliders_unchanged ⟨0, 1, 0⟩ [staticBox] ⟨0, 0, 1⟩ ⟨1, 0, 0⟩ 1.8 0.5
    pushOracle [⟨1, 0, 0⟩] 0 staticBox rfl rfl

lemma scanGround_none (r : ℚ) : ∀ (hs : List (Option GroundHit)) (idx : ℕ) (agg : GroundAgg),
    (hs.all fun h => h.isNone) = true → scanGround r hs idx agg = agg
  | [], _, _, _ => rfl
  | none :: hs, idx, agg, hall => by
      rw [scanGround]
      exact scanGround_none r hs (idx + 1) agg (by simpa using hall)
  | some h :: _, _, _, hall => by simp at hall

lemma horizRow_none (objBelow : Option ℕ) (rayDistance : ℚ) :
    ∀ (hs : List (Option HorizHit)) (ds : List Vec3) (st : HorizState),
      (hs.all fun h => h.isNone) = true → horizRow objBelow rayDistance hs ds st = st
  | [], _, _, _ => rfl
  | _ :: _, [], _, _ => by simp only [horizRow]
  | none :: hs, _ :: ds, st, hall =>
      horizRow_none objBelow rayDistance hs ds st (by simpa using hall)
  | some h :: _, _ :: _, _, hall => by simp at hall

lemma horizGrid_none (objBelow : Option ℕ) (rayDistance : ℚ) (dirs : List Vec3) :
    ∀ (rows : List (List (Option HorizHit))) (st : HorizState),
      (rows.all fun row => row.all fun h => h.isNone) = true →
      horizGrid objBelow rayDistance dirs rows st = st
  | [], _, _ => rfl
  | row :: rows, st, hall => by
      rw [List.all_cons, Bool.and_eq_true] at hall
      rw [horizGrid, horizRow_none objBelow rayDistance row dirs st hall.1]
      exact horizGrid_none objBelow rayDistance dirs rows st hall.2

/-- C7: when the character is above the hard floor clamp (position.y at least
0.05) and no probe ray hits anything, checkCollision returns the exact
no-contact result: airborne, no slope, no wall, no ledge, adjustedPosition
equal to the input position, and position, velocity and colliders unchanged.
(Below 0.05 the claim fails: the hard-floor branch grounds the character with
no colliders at all.) -/
theorem C7_no_hit_no_contact (position : Vec3) (objects : List Collider)
    (cameraDirection playerVelocity : Vec3) (playerHeight playerRadius : ℚ)
    (orc : CollisionOracle) (dirs : List Vec3)
    (hy : ¬ position.y < 0.05) (hn : orc.noHits = true) :
    checkCollision position objects cameraDirection playerVelocity
        playerHeight playerRadius orc dirs =
      { result :=
          { isOnGround := false, isOnSlope := false, slopeAngle := 0
            slopeNormal := ⟨0, 1, 0⟩, collisionDirection := none, objectBelow := none
            adjustedPosition := position, groundHeight := 0, canStepUp := false
            hitPoint := none, wallNormal := none, canGrabLedge := false
            ledgeInfo := none, hasWallCollision := false }
        position := position
        velocity := playerVelocity
        objects := objects } := by
  have hn1 := hn
  simp only [CollisionOracle.noHits, Bool.and_eq_true] at hn1
  have hg := hn1.1.1
  have hh := hn1.1.2
  have hl : orc.ledgeHit = none := Option.isNone_iff_eq_none.mp hn1.2
  simp only [checkCollision]
  rw [if_neg (by simpa using hy)]
  rw [scanGround_none playerRadius orc.groundHits 0 GroundAgg.init hg]
  rw [horizGrid_none _ _ dirs orc.horizHits _ hh]
  simp [GroundAgg.init, checkForLedges, hl]

/-- Empty probe results: nothing was hit. -/
def emptyOracle : CollisionOracle :=
  { groundHits := [], horizHits := [], ledgeHit := none, aboveHit := none }

/-- Counterexample to C7 as claimed: at position (0,0,0) with an empty
collider set, no probe hits anything, yet checkCollision (hard-floor branch)
reports the character grounded and moves adjustedPosition to y = 0.05. -/
theorem C7_counterexample :
    (checkCollision ⟨0, 0, 0⟩ [] ⟨0, 0, 1⟩ ⟨0, 0, 0⟩ 1.8 0.5 emptyOracle []).result.isOnGround
        = true ∧
    (checkCollision ⟨0, 0, 0⟩ [] ⟨0, 0, 1⟩ ⟨0, 0, 0⟩ 1.8 0.5 emptyOracle
        []).result.adjustedPosition ≠ ⟨0, 0, 0⟩ := by
  decide

/-- Witness for C7 at a concrete airborne call: position (0,1,0), empty
collider set and probes, exact no-contact output. -/
theorem C7_no_hit_no_contact_witness :
    checkCollision ⟨0, 1, 0⟩ [] ⟨0, 0, 1⟩ ⟨0, -1, 0⟩ 1.8 0.5 emptyOracle [] =
      { result :=
          { isOnGround := false, isOnSlope := false, slopeAngle := 0
            slopeNormal := ⟨0, 1, 0⟩, collisionDirection := none, objectBelow := none
            adjustedPosition := ⟨0, 1, 0⟩, groundHeight := 0, canStepUp := false
            hitPoint := none, wallNormal := none, canGrabLedge := false
            ledgeInfo := none, hasWallCollision := false }
        position := ⟨0, 1, 0⟩
        velocity := ⟨0, -1, 0⟩
        objects := [] } :=
  C7_no_hit_no_contact ⟨0, 1, 0⟩ [] ⟨0, 0, 1⟩ ⟨0, -1, 0⟩ 1.8 0.5 emptyOracle []
    (by decide) (by decide)

/-! ### Connection handling lemmas (C9) -/

lemma runConn_msg_spec : ∀ (evs : List ConnEvent) (g : SrvGameConn) (k : ℕ) (m : InitMsg),
    g.currentSpawnPointIndex < spawnPoints.length →
    ((runConn g evs).2).get? k = some m →
    m.playerId = g.nextPlayerId + k ∧
    m.initialPosition =
      spawnPoints.getD ((g.currentSpawnPointIndex + k) % spawnPoints.length) Vec3.zero ∧
    ∃ ps, m.roster = ps ++ [(m.playerId, m.initialPosition)]
  | [], g, k, m, _, hm => by simp [runConn] at hm
  | ConnEvent.connect :: evs, g, k, m, hi, hm => by
      simp only [runConn] at hm
      cases k with
      | zero =>
          simp only [List.get?_cons_zero, Option.some.injEq] at hm
          subst hm
          refine ⟨Nat.add_zero _ ▸ rfl, ?_, ⟨g.players, rfl⟩⟩
          rw [Nat.add_zero, Nat.mod_eq_of_lt hi]
          rfl
      | succ k =>
          simp only [List.get?_cons_succ] at hm
          have hidx : (connectStep g).1.currentSpawnPointIndex < spawnPoints.length :=
            Nat.mod_lt _ (by decide)
          have ih := runConn_msg_spec evs (connectStep g).1 k m hidx hm
          refine ⟨?_, ?_, ih.2.2⟩
          · rw [ih.1]
            show g.nextPlayerId + 1 + k = g.nextPlayerId + (k + 1)
            omega
          · rw [ih.2.1]
            have harith :
                ((g.currentSpawnPointIndex + 1) % spawnPoints.length + k) % spawnPoints.length =
                  (g.currentSpawnPointIndex + (k + 1)) % spawnPoints.length := by
              rw [Nat.mod_add_mod]
              congr 1
              omega
            exact congrArg (fun n => spawnPoints.getD n Vec3.zero) harith
  | ConnEvent.disconnect id :: evs, g, k, m, hi, hm => by
      simp only [runConn] at hm
      exact runConn_msg_spec evs (disconnectStep g id) k m hi hm

lemma runConn_msg_count : ∀ (evs : List ConnEvent) (g : SrvGameConn),
    ((runConn g evs).2).length = evs.countP (fun e => decide (e = ConnEvent.connect))
  | [], _ => rfl
  | ConnEvent.connect :: evs, g => by
      simp only [runConn, List.length_cons, List.countP_cons]
      rw [runConn_msg_count evs (connectStep g).1]
      simp
  | ConnEvent.disconnect id :: evs, g => by
      simp only [runConn, List.countP_cons]
      rw [runConn_msg_count evs (disconnectStep g id)]
      simp

/-- C9: on a fresh server, across any event sequence (connects and
disconnects interleaved), the k-th connection (counting from 0) receives an
init message carrying id k — ids are unique since they equal the connect
ordinal — and an initial position equal to the spawn point at index k mod N
in the fixed N-entry spawn list (round-robin); the message's roster is the
post-insert roster snapshot, carrying the new player as its last entry; and
one init message is sent per connect event. -/
theorem C9_round_robin_spawn (evs : List ConnEvent) (k : ℕ) (m : InitMsg)
    (hm : ((runConn SrvGameConn.start evs).2).get? k = some m) :
    m.playerId = k ∧
    m.initialPosition = spawnPoints.getD (k % spawnPoints.length) Vec3.zero ∧
    (m.playerId, m.initialPosition) ∈ m.roster ∧
    m.roster.getLast? = some (m.playerId, m.initialPosition) ∧
    ((runConn SrvGameConn.start evs).2).length =
      evs.countP (fun e => decide (e = ConnEvent.connect)) := by
  have h := runConn_msg_spec evs SrvGameConn.start k m (by decide) hm
  obtain ⟨ps, hps⟩ := h.2.2
  refine ⟨by simpa [SrvGameConn.start] using h.1,
    by simpa [SrvGameConn.start] using h.2.1, ?_, ?_, runConn_msg_count evs _⟩
  · rw [hps]
    simp
  · rw [hps]
    simp

/-- Witness for C9: four events (connect, disconnect of player 0, two more
connects); the third connection (k = 2) gets id 2, the spawn point at index
2, and a roster snapshot listing it last. -/
theorem C9_round_robin_spawn_witness :
    ({ playerId := 2, initialPosition := ⟨0, 1.5, -20⟩
       roster := [(1, ⟨20, 1.5, 0⟩), (2, ⟨0, 1.5, -20⟩)] } : InitMsg).playerId = 2 ∧
    ({ playerId := 2, initialPosition := ⟨0, 1.5, -20⟩
       roster := [(1, ⟨20, 1.5, 0⟩), (2, ⟨0, 1.5, -20⟩)] } : InitMsg).initialPosition =
      spawnPoints.getD (2 % spawnPoints.length) Vec3.zero ∧
    (2, (⟨0, 1.5, -20⟩ : Vec3)) ∈
      ({ playerId := 2, initialPosition := ⟨0, 1.5, -20⟩
         roster := [(1, ⟨20, 1.5, 0⟩), (2, ⟨0, 1.5, -20⟩)] } : InitMsg).roster ∧
    ({ playerId := 2, initialPosition := ⟨0, 1.5, -20⟩
       roster := [(1, ⟨20, 1.5, 0⟩), (2, ⟨0, 1.5, -20⟩)] } : InitMsg).roster.getLast? =
      some (2, ⟨0, 1.5, -20⟩) ∧
    ((runConn SrvGameConn.start
        [ConnEvent.connect, ConnEvent.disconnect 0, ConnEvent.connect,
          ConnEvent.connect]).2).length =
      [ConnEvent.connect, ConnEvent.disconnect 0, ConnEvent.connect,
        ConnEvent.connect].countP (fun e => decide (e = ConnEvent.connect)) :=
  C9_round_robin_spawn
    [ConnEvent.connect, ConnEvent.disconnect 0, ConnEvent.connect, ConnEvent.connect] 2
    { playerId := 2, initialPosition := ⟨0, 1.5, -20⟩
      roster := [(1, ⟨20, 1.5, 0⟩), (2, ⟨0, 1.5, -20⟩)] }
    (by decide)

/-! ### Ground-lock lemmas (C2) -/

lemma horizHitStep_vel_y (objBelow : Option ℕ) (rayDistance : ℚ) (dir : Vec3)
    (st : HorizState) (h : HorizHit) :
    (horizHitStep objBelow rayDistance dir st h).velocity.y = st.velocity.y := by
  simp only [horizHitStep]
  split
  · rfl
  · split
    · rfl
    · split
      · rfl
      · dsimp only
        split
        · split
          · rfl
          · rfl
        · rfl

lemma horizRow_vel_y (objBelow : Option ℕ) (rayDistance : ℚ) :
    ∀ (hs : List (Option HorizHit)) (ds : List Vec3) (st : HorizState),
      (horizRow objBelow rayDistance hs ds st).velocity.y = st.velocity.y
  | [], _, _ => rfl
  | _ :: _, [], _ => by simp only [horizRow]
  | none :: hs, _ :: ds, st => horizRow_vel_y objBelow rayDistance hs ds st
  | some h :: hs, d :: ds, st => by
      rw [horizRow, horizRow_vel_y objBelow rayDistance hs ds _,
        horizHitStep_vel_y]

lemma horizGrid_vel_y (objBelow : Option ℕ) (rayDistance : ℚ) (dirs : List Vec3) :
    ∀ (rows : List (List (Option HorizHit))) (st : HorizState),
      (horizGrid objBelow rayDistance dirs rows st).velocity.y = st.velocity.y
  | [], _ => rfl
  | row :: rows, st => by
      rw [horizGrid, horizGrid_vel_y objBelow rayDistance dirs rows _,
        horizRow_vel_y]

lemma checkForLedges_isOnGround (objects : List Collider) (orc : CollisionOracle)
    (result : CollisionResult) :
    (checkForLedges objects orc result).isOnGround = result.isOnGround := by
  simp only [checkForLedges]
  repeat' split
  all_goals rfl

lemma phasePost_ground_vel (s : CState) (w : Bool) (dt : ℚ) :
    (phasePost s w dt).isOnGround = s.isOnGround ∧
    (s.isOnGround = true → (phasePost s w dt).velocity.y = 0) := by
  simp only [phasePost, stopWallRunning, onLanding]
  repeat' split
  all_goals simp_all

/-- C2: what the code actually locks to the ground.  (i) The ground step of
the client collision check grounds the character and zeroes the vertical
velocity whenever the position it probes ends at most 0.15 above detected
ground of slope below 50 degrees with vertical velocity at most 0 (the
client threshold is 0.15, not the 0.25 ground tolerance of the physics
module, see the counterexample).  This lock is a property of the collision
step, not of the whole tick: the post-collision jump assist can run jump()
on the grounded result while the jump button is held and end the tick
airborne.  At tick level what holds unconditionally is (ii): every client
tick that ends grounded ends with vertical velocity 0.  (iii) The
server-side physics grounds and zeroes the vertical velocity whenever the
position is at least 0.05 high and ends at most 0.25 above the lowest
ground-probe hit. -/
theorem C2_ground_lock :
    (∀ (newPos vel : Vec3) (probe : GroundProbeC) (res : CollisionResult),
      probe.found = true → newPos.y - probe.height ≤ 0.15 → probe.angleDeg < 50 →
      vel.y ≤ 0 →
      (clientGroundPhase newPos vel probe res).1.isOnGround = true ∧
      (clientGroundPhase newPos vel probe res).2.1.y = probe.height + 0.02 ∧
      (clientGroundPhase newPos vel probe res).2.2.y = 0) ∧
    (∀ (s : CState) (tin : CTickIn) (env : CTickEnv),
      (clientStepE s tin env).1.isOnGround = true →
      (clientStepE s tin env).1.velocity.y = 0) ∧
    (∀ (position : Vec3) (objects : List Collider) (cameraDirection playerVelocity : Vec3)
        (playerHeight playerRadius : ℚ) (orc : CollisionOracle) (dirs : List Vec3),
      ¬ position.y < 0.05 →
      (scanGround playerRadius orc.groundHits 0 GroundAgg.init).any = true →
      position.y - (scanGround playerRadius orc.groundHits 0 GroundAgg.init).lowest ≤ 0.25 →
      (checkCollision position objects cameraDirection playerVelocity
          playerHeight playerRadius orc dirs).result.isOnGround = true ∧
      (checkCollision position objects cameraDirection playerVelocity
          playerHeight playerRadius orc dirs).velocity.y = 0) := by
  refine ⟨?_, ?_, ?_⟩
  · intro newPos vel probe res hf hd hw hv
    have hv5 : vel.y ≤ 0.05 := le_trans hv (by norm_num)
    simp only [clientGroundPhase]
    rw [if_pos hf, if_pos ⟨hd, hw, hv5⟩, if_pos hv]
    exact ⟨rfl, rfl, rfl⟩
  · intro s tin env hg
    simp only [clientStepE] at hg ⊢
    rw [(phasePost_ground_vel _ _ _).1] at hg
    exact (phasePost_ground_vel _ _ _).2 hg
  · intro position objects cameraDirection playerVelocity playerHeight playerRadius
      orc dirs hy ha hd
    simp only [checkCollision]
    rw [if_neg (by simpa using hy), if_pos ha, if_pos hd]
    constructor
    · dsimp only
      rw [checkForLedges_isOnGround]
      split
      · rfl
      · rfl
    · dsimp only
      rw [horizGrid_vel_y]

/-- The airborne falling tick of the counterexample: 10 ms, no input, no
buttons. -/
def fallTick : CTickIn :=
  { dt := 0.01, normInput := Vec3.zero, inputLen := 0, jumpPressed := false
    crouchPressed := false, sprintPressed := false }

/-- Flat walkable ground at height 0 under the character; no other raycast
hits. -/
def flatGroundEnv : CTickEnv :=
  { CTickEnv.empty with
      ground := { found := true, height := 0, normal := ⟨0, 1, 0⟩, angleDeg := 0 } }

/-- Counterexample to C2 as claimed: a stationary character falling from
height 0.1922 ends the tick 0.19 above flat walkable ground (within the 0.25
ground tolerance) with vertical velocity -0.22 <= 0, yet the post-tick state
has isOnGround = false and a nonzero vertical velocity: the client ground
snap demands being within 0.15. -/
theorem C2_counterexample :
    ((clientStepE (CState.initial ⟨0, 0.1922, 0⟩) fallTick flatGroundEnv).1.position.y -
        flatGroundEnv.ground.height ≤ 0.25) ∧
    flatGroundEnv.ground.angleDeg < 50 ∧
    (clientStepE (CState.initial ⟨0, 0.1922, 0⟩) fallTick flatGroundEnv).1.velocity.y ≤ 0 ∧
    (clientStepE (CState.initial ⟨0, 0.1922, 0⟩) fallTick flatGroundEnv).1.isOnGround
        = false ∧
    (clientStepE (CState.initial ⟨0, 0.1922, 0⟩) fallTick flatGroundEnv).1.velocity.y ≠ 0 := by
  decide

/-- The flat ground probe used by the C2 witness. -/
def flatProbe : GroundProbeC :=
  { found := true, height := 0, normal := ⟨0, 1, 0⟩, angleDeg := 0 }

/-- A default (no-contact) collision result record. -/
def emptyResult : CollisionResult :=
  { isOnGround := false, isOnSlope := false, slopeAngle := 0
    slopeNormal := ⟨0, 1, 0⟩, collisionDirection := none, objectBelow := none
    adjustedPosition := Vec3.zero, groundHeight := 0, canStepUp := false
    hitPoint := none, wallNormal := none, canGrabLedge := false
    ledgeInfo := none, hasWallCollision := false }

/-- One flat ground-probe hit at height 0 for the server-side witness. -/
def oneGroundOracle : CollisionOracle :=
  { groundHits := [some { point := ⟨0, 0, 0⟩, objIdx := 0, hasFace := true
                          normal := ⟨0, 1, 0⟩, angleDeg := 0 }]
    horizHits := [], ledgeHit := none, aboveHit := none }

/-- Witness for C2 at concrete inputs: the client ground phase snapping from
0.1 above ground, a full client tick that ends grounded with vertical
velocity 0, and a server checkCollision call 0.2 above a ground hit. -/
theorem C2_ground_lock_witness :
    ((clientGroundPhase ⟨0, 0.1, 0⟩ ⟨0, -1, 0⟩ flatProbe emptyResult).1.isOnGround = true ∧
      (clientGroundPhase ⟨0, 0.1, 0⟩ ⟨0, -1, 0⟩ flatProbe emptyResult).2.1.y =
        flatProbe.height + 0.02 ∧
      (clientGroundPhase ⟨0, 0.1, 0⟩ ⟨0, -1, 0⟩ flatProbe emptyResult).2.2.y = 0) ∧
    (clientStepE (CState.initial ⟨0, 0.1, 0⟩) fallTick flatGroundEnv).1.velocity.y = 0 ∧
    ((checkCollision ⟨0, 0.2, 0⟩ [] ⟨0, 0, 1⟩ ⟨1, -3, 0⟩ 1.8 0.5
        oneGroundOracle []).result.isOnGround = true ∧
      (checkCollision ⟨0, 0.2, 0⟩ [] ⟨0, 0, 1⟩ ⟨1, -3, 0⟩ 1.8 0.5
        oneGroundOracle []).velocity.y = 0) :=
  ⟨C2_ground_lock.1 ⟨0, 0.1, 0⟩ ⟨0, -1, 0⟩ flatProbe emptyResult (by decide) (by decide)
      (by decide) (by decide),
    C2_ground_lock.2.1 (CState.initial ⟨0, 0.1, 0⟩) fallTick flatGroundEnv (by decide),
    C2_ground_lock.2.2 ⟨0, 0.2, 0⟩ [] ⟨0, 0, 1⟩ ⟨1, -3, 0⟩ 1.8 0.5 oneGroundOracle []
      (by decide) (by decide) (by decide)⟩

/-! ### Jump bookkeeping lemmas (C1) -/

lemma handleCrouching_G (s : CState) (b : Bool) (d : Vec3) :
    (handleCrouching s b d).isOnGround = s.isOnGround := by
  simp only [handleCrouching]
  repeat' split
  all_goals rfl

lemma handleCrouching_J (s : CState) (b : Bool) (d : Vec3) :
    (handleCrouching s b d).isJumping = s.isJumping := by
  simp only [handleCrouching]
  repeat' split
  all_goals rfl

lemma handleCrouching_T (s : CState) (b : Bool) (d : Vec3) :
    (handleCrouching s b d).groundedTimer = s.groundedTimer := by
  simp only [handleCrouching]
  repeat' split
  all_goals rfl

lemma handleSprinting_G (s : CState) (b : Bool) :
    (handleSprinting s b).isOnGround = s.isOnGround := by
  simp only [handleSprinting]
  split
  all_goals rfl

lemma handleSprinting_J (s : CState) (b : Bool) :
    (handleSprinting s b).isJumping = s.isJumping := by
  simp only [handleSprinting]
  split
  all_goals rfl

lemma handleSprinting_T (s : CState) (b : Bool) :
    (handleSprinting s b).groundedTimer = s.groundedTimer := by
  simp only [handleSprinting]
  split
  all_goals rfl

lemma applyMovement_G (s : CState) (i : Vec3) (dt : ℚ) :
    (applyMovement s i dt).isOnGround = s.isOnGround := rfl

lemma applyMovement_J (s : CState) (i : Vec3) (dt : ℚ) :
    (applyMovement s i dt).isJumping = s.isJumping := rfl

lemma applyMovement_T (s : CState) (i : Vec3) (dt : ℚ) :
    (applyMovement s i dt).groundedTimer = s.groundedTimer := rfl

lemma handleLedgeGrabbing_G (s : CState) (env : CTickEnv) :
    (handleLedgeGrabbing s env).isOnGround = s.isOnGround := by
  simp only [handleLedgeGrabbing]
  repeat' split
  all_goals rfl

lemma handleLedgeGrabbing_J (s : CState) (env : CTickEnv) :
    (handleLedgeGrabbing s env).isJumping = s.isJumping := by
  simp only [handleLedgeGrabbing]
  repeat' split
  all_goals rfl

lemma handleLedgeGrabbing_T (s : CState) (env : CTickEnv) :
    (handleLedgeGrabbing s env).groundedTimer = s.groundedTimer := by
  simp only [handleLedgeGrabbing]
  repeat' split
  all_goals rfl

lemma applyGravity_G (s : CState) (dt : ℚ) :
    (applyGravity s dt).isOnGround = s.isOnGround := rfl

lemma applyGravity_J (s : CState) (dt : ℚ) :
    (applyGravity s dt).isJumping = s.isJumping := rfl

lemma applyGravity_T (s : CState) (dt : ℚ) :
    (applyGravity s dt).groundedTimer = s.groundedTimer := rfl

lemma handleLedgeMovement_G (s : CState) (i : Vec3) (b : Bool) (env : CTickEnv) :
    (handleLedgeMovement s i b env).isOnGround = s.isOnGround := by
  simp only [handleLedgeMovement, startMantling]
  repeat' split
  all_goals rfl

lemma handleLedgeMovement_J (s : CState) (i : Vec3) (b : Bool) (env : CTickEnv) :
    (handleLedgeMovement s i b env).isJumping = s.isJumping := by
  simp only [handleLedgeMovement, startMantling]
  repeat' split
  all_goals rfl

lemma handleLedgeMovement_T (s : CState) (i : Vec3) (b : Bool) (env : CTickEnv) :
    (handleLedgeMovement s i b env).groundedTimer = s.groundedTimer := by
  simp only [handleLedgeMovement, startMantling]
  repeat' split
  all_goals rfl

lemma updateMantling_G (s : CState) (dt : ℚ) :
    (updateMantling s dt).isOnGround = s.isOnGround := by
  simp only [updateMantling]
  repeat' split
  all_goals rfl

lemma updateMantling_J (s : CState) (dt : ℚ) :
    (updateMantling s dt).isJumping = s.isJumping := by
  simp only [updateMantling]
  repeat' split
  all_goals rfl

lemma updateMantling_T (s : CState) (dt : ℚ) :
    (updateMantling s dt).groundedTimer = s.groundedTimer := by
  simp only [updateMantling]
  repeat' split
  all_goals rfl

lemma performWallJump_G (s : CState) :
    (performWallJump s).isOnGround = false ∨ (performWallJump s).isOnGround = s.isOnGround := by
  simp only [performWallJump, stopWallRunning]
  repeat' split
  all_goals simp_all

lemma performWallJump_J (s : CState) :
    (performWallJump s).isJumping = true ∨ (performWallJump s).isJumping = s.isJumping := by
  simp only [performWallJump, stopWallRunning]
  repeat' split
  all_goals simp_all

lemma performWallJump_T (s : CState) :
    (performWallJump s).groundedTimer = 0 ∨
      (performWallJump s).groundedTimer = s.groundedTimer := by
  simp only [performWallJump, stopWallRunning]
  repeat' split
  all_goals simp_all

lemma checkForWallJump_G (s : CState) (env : CTickEnv) :
    (checkForWallJump s env).1.isOnGround = s.isOnGround := by
  simp only [checkForWallJump]
  repeat' split
  all_goals rfl

lemma checkForWallJump_J (s : CState) (env : CTickEnv) :
    (checkForWallJump s env).1.isJumping = s.isJumping := by
  simp only [checkForWallJump]
  repeat' split
  all_goals rfl

lemma checkForWallJump_T (s : CState) (env : CTickEnv) :
    (checkForWallJump s env).1.groundedTimer = s.groundedTimer := by
  simp only [checkForWallJump]
  repeat' split
  all_goals rfl

lemma stopWallRunning_G (s : CState) :
    (stopWallRunning s).isOnGround = s.isOnGround := rfl

lemma stopWallRunning_J (s : CState) :
    (stopWallRunning s).isJumping = s.isJumping := rfl

lemma stopWallRunning_T (s : CState) :
    (stopWallRunning s).groundedTimer = s.groundedTimer := rfl

lemma startWallRunning_G (s : CState) (h : Vec3) :
    (startWallRunning s h).isOnGround = s.isOnGround := rfl

lemma startWallRunning_J (s : CState) (h : Vec3) :
    (startWallRunning s h).isJumping = s.isJumping := rfl

lemma startWallRunning_T (s : CState) (h : Vec3) :
    (startWallRunning s h).groundedTimer = s.groundedTimer := rfl

lemma applyWallRunning_G (s : CState) (dt : ℚ) (i : Vec3) (l : ℚ) :
    (applyWallRunning s dt i l).isOnGround = s.isOnGround := by
  simp only [applyWallRunning]
  repeat' split
  all_goals rfl

lemma applyWallRunning_J (s : CState) (dt : ℚ) (i : Vec3) (l : ℚ) :
    (applyWallRunning s dt i l).isJumping = s.isJumping := by
  simp only [applyWallRunning]
  repeat' split
  all_goals rfl

lemma applyWallRunning_T (s : CState) (dt : ℚ) (i : Vec3) (l : ℚ) :
    (applyWallRunning s dt i l).groundedTimer = s.groundedTimer := by
  simp only [applyWallRunning]
  repeat' split
  all_goals rfl

lemma attemptLedgeGrabFromWallRun_G (s : CState) (env : CTickEnv) :
    (attemptLedgeGrabFromWallRun s env).1.isOnGround = s.isOnGround := by
  simp only [attemptLedgeGrabFromWallRun]
  repeat' split
  all_goals rfl

lemma attemptLedgeGrabFromWallRun_J (s : CState) (env : CTickEnv) :
    (attemptLedgeGrabFromWallRun s env).1.isJumping = s.isJumping := by
  simp only [attemptLedgeGrabFromWallRun]
  repeat' split
  all_goals rfl

lemma attemptLedgeGrabFromWallRun_T (s : CState) (env : CTickEnv) :
    (attemptLedgeGrabFromWallRun s env).1.groundedTimer = s.groundedTimer := by
  simp only [attemptLedgeGrabFromWallRun]
  repeat' split
  all_goals rfl

lemma handleWallRunning_G (s : CState) (dt : ℚ) (i : Vec3) (l : ℚ) (env : CTickEnv)
    (jp : Bool) :
    (handleWallRunning s dt i l env jp).isOnGround = false ∨
      (handleWallRunning s dt i l env jp).isOnGround = s.isOnGround := by
  simp only [handleWallRunning]
  repeat' split
  all_goals
    first
      | exact Or.inr rfl
      | exact Or.inr (by rw [stopWallRunning_G])
      | exact Or.inr (by rw [attemptLedgeGrabFromWallRun_G, applyWallRunning_G])
      | exact Or.inr (by rw [attemptLedgeGrabFromWallRun_G])
      | exact Or.inr (by rw [startWallRunning_G])
      | exact Or.inr (by rw [applyWallRunning_G])
      | exact (performWallJump_G _).imp (fun h => h)
          (fun h => h.trans
            (by rw [attemptLedgeGrabFromWallRun_G, applyWallRunning_G]))

lemma handleWallRunning_J (s : CState) (dt : ℚ) (i : Vec3) (l : ℚ) (env : CTickEnv)
    (jp : Bool) :
    (handleWallRunning s dt i l env jp).isJumping = true ∨
      (handleWallRunning s dt i l env jp).isJumping = s.isJumping := by
  simp only [handleWallRunning]
  repeat' split
  all_goals
    first
      | exact Or.inr rfl
      | exact Or.inr (by rw [stopWallRunning_J])
      | exact Or.inr (by rw [attemptLedgeGrabFromWallRun_J, applyWallRunning_J])
      | exact Or.inr (by rw [attemptLedgeGrabFromWallRun_J])
      | exact Or.inr (by rw [startWallRunning_J])
      | exact Or.inr (by rw [applyWallRunning_J])
      | exact (performWallJump_J _).imp (fun h => h)
          (fun h => h.trans
            (by rw [attemptLedgeGrabFromWallRun_J, applyWallRunning_J]))

lemma handleWallRunning_T (s : CState) (dt : ℚ) (i : Vec3) (l : ℚ) (env : CTickEnv)
    (jp : Bool) :
    (handleWallRunning s dt i l env jp).groundedTimer = 0 ∨
      (handleWallRunning s dt i l env jp).groundedTimer = s.groundedTimer := by
  simp only [handleWallRunning]
  repeat' split
  all_goals
    first
      | exact Or.inr rfl
      | exact Or.inr (by rw [stopWallRunning_T])
      | exact Or.inr (by rw [attemptLedgeGrabFromWallRun_T, applyWallRunning_T])
      | exact Or.inr (by rw [attemptLedgeGrabFromWallRun_T])
      | exact Or.inr (by rw [startWallRunning_T])
      | exact Or.inr (by rw [applyWallRunning_T])
      | exact (performWallJump_T _).imp (fun h => h)
          (fun h => h.trans
            (by rw [attemptLedgeGrabFromWallRun_T, applyWallRunning_T]))

lemma jumpFn_spec (s : CState) :
    (jumpFn s).isOnGround = false ∧ (jumpFn s).isJumping = true ∧
      (jumpFn s).groundedTimer = 0 := by
  simp only [jumpFn, checkClearanceToStand]
  repeat' split
  all_goals simp_all

lemma attemptLedgeGrab_G (s : CState) (env : CTickEnv) :
    (attemptLedgeGrab s env).isOnGround = s.isOnGround :=
  handleLedgeGrabbing_G s env

lemma attemptLedgeGrab_J (s : CState) (env : CTickEnv) :
    (attemptLedgeGrab s env).isJumping = s.isJumping :=
  handleLedgeGrabbing_J s env

lemma attemptLedgeGrab_T (s : CState) (env : CTickEnv) :
    (attemptLedgeGrab s env).groundedTimer = s.groundedTimer :=
  handleLedgeGrabbing_T s env

lemma phasePre_G (s : CState) (tin : CTickIn) (env : CTickEnv) :
    (phasePre s tin env).isOnGround = s.isOnGround := by
  simp only [phasePre, handleLedgeGrabbing_G, applyMovement_G, handleSprinting_G,
    handleCrouching_G]
  repeat' split
  all_goals rfl

lemma phasePre_J (s : CState) (tin : CTickIn) (env : CTickEnv) :
    (phasePre s tin env).isJumping = s.isJumping := by
  simp only [phasePre, handleLedgeGrabbing_J, applyMovement_J, handleSprinting_J,
    handleCrouching_J]
  repeat' split
  all_goals rfl

lemma phasePre_T (s : CState) (tin : CTickIn) (env : CTickEnv) :
    (phasePre s tin env).groundedTimer = s.groundedTimer := by
  simp only [phasePre, handleLedgeGrabbing_T, applyMovement_T, handleSprinting_T,
    handleCrouching_T]
  repeat' split
  all_goals rfl

lemma phaseMoveWall_G (s : CState) (tin : CTickIn) (env : CTickEnv) :
    (phaseMoveWall s tin env).isOnGround = false ∨
      (phaseMoveWall s tin env).isOnGround = s.isOnGround := by
  simp only [phaseMoveWall]
  split
  · exact handleWallRunning_G s tin.dt tin.normInput tin.inputLen env tin.jumpPressed
  · exact Or.inr rfl

lemma phaseMoveWall_J (s : CState) (tin : CTickIn) (env : CTickEnv)
    (hj : s.isJumping = true) : (phaseMoveWall s tin env).isJumping = true := by
  simp only [phaseMoveWall]
  split
  · rcases handleWallRunning_J s tin.dt tin.normInput tin.inputLen env tin.jumpPressed
      with h | h
    · exact h
    · rw [h]; exact hj
  · exact hj

lemma phaseMoveWall_T (s : CState) (tin : CTickIn) (env : CTickEnv) :
    (phaseMoveWall s tin env).groundedTimer = 0 ∨
      (phaseMoveWall s tin env).groundedTimer = s.groundedTimer := by
  simp only [phaseMoveWall]
  split
  · exact handleWallRunning_T s tin.dt tin.normInput tin.inputLen env tin.jumpPressed
  · exact Or.inr rfl

lemma phaseMoveGrav_G (s : CState) (dt : ℚ) :
    (phaseMoveGrav s dt).isOnGround = s.isOnGround := by
  simp only [phaseMoveGrav]
  split
  all_goals rfl

lemma phaseMoveGrav_J (s : CState) (dt : ℚ) :
    (phaseMoveGrav s dt).isJumping = s.isJumping := by
  simp only [phaseMoveGrav]
  split
  all_goals rfl

lemma phaseMoveGrav_T (s : CState) (dt : ℚ) :
    (phaseMoveGrav s dt).groundedTimer = s.groundedTimer := by
  simp only [phaseMoveGrav]
  split
  all_goals rfl

lemma phaseMoveJump_ap (s : CState) (tin : CTickIn) (env : CTickEnv) :
    (phaseMoveJump s tin env).2 = true →
      (phaseMoveJump s tin env).1.isOnGround = false ∧
      (phaseMoveJump s tin env).1.isJumping = true ∧
      (phaseMoveJump s tin env).1.groundedTimer = 0 := by
  simp only [phaseMoveJump]
  repeat' split
  all_goals intro hap
  all_goals
    first
      | exact absurd hap Bool.false_ne_true
      | exact ⟨(jumpFn_spec _).1, (jumpFn_spec _).2.1, (jumpFn_spec _).2.2⟩

lemma phaseMoveJump_J (s : CState) (tin : CTickIn) (env : CTickEnv)
    (hj : s.isJumping = true) : (phaseMoveJump s tin env).1.isJumping = true := by
  simp only [phaseMoveJump]
  repeat' split
  all_goals dsimp only
  all_goals
    first
      | exact (jumpFn_spec _).2.1
      | exact hj
      | (rw [attemptLedgeGrab_J, checkForWallJump_J]; exact hj)
      | (rcases performWallJump_J _ with h | h
         · exact h
         · rw [h, checkForWallJump_J]; exact hj)

lemma phaseMoveJump_T (s : CState) (tin : CTickIn) (env : CTickEnv) :
    (phaseMoveJump s tin env).1.groundedTimer = 0 ∨
      (phaseMoveJump s tin env).1.groundedTimer = s.groundedTimer := by
  simp only [phaseMoveJump]
  repeat' split
  all_goals dsimp only
  all_goals
    first
      | exact Or.inl ((jumpFn_spec _).2.2)
      | exact Or.inr rfl
      | exact Or.inr (by rw [attemptLedgeGrab_T, checkForWallJump_T])
      | (rcases performWallJump_T _ with h | h
         · exact Or.inl h
         · rw [h, checkForWallJump_T]
           exact Or.inr rfl)

lemma phaseMoveJump_M1 (s : CState) (tin : CTickIn) (env : CTickEnv)
    (hG : s.isOnGround = false) (hT : s.groundedTimer = 0) :
    (phaseMoveJump s tin env).2 = false := by
  simp only [phaseMoveJump]
  repeat' split
  all_goals try rfl
  all_goals
    (rename_i hcond
     exfalso
     rcases hcond with h | h
     · rw [hG] at h
       exact Bool.false_ne_true h
     · rw [hT] at h
       exact lt_irrefl 0 h.1)

lemma phaseMoveRelease_G (s : CState) (tin : CTickIn) :
    (phaseMoveRelease s tin).isOnGround = s.isOnGround := by
  simp only [phaseMoveRelease]
  split
  all_goals rfl

lemma phaseMoveRelease_J (s : CState) (tin : CTickIn) :
    (phaseMoveRelease s tin).isJumping = s.isJumping := by
  simp only [phaseMoveRelease]
  split
  all_goals rfl

lemma phaseMoveRelease_T (s : CState) (tin : CTickIn) :
    (phaseMoveRelease s tin).groundedTimer = s.groundedTimer := by
  simp only [phaseMoveRelease]
  split
  all_goals rfl

lemma phaseMove_J (s : CState) (tin : CTickIn) (env : CTickEnv) (hj : s.isJumping = true) :
    (phaseMove s tin env).1.isJumping = true := by
  simp only [phaseMove]
  split
  · dsimp only
    rw [handleLedgeMovement_J]
    exact hj
  · split
    · dsimp only
      rw [updateMantling_J]
      exact hj
    · dsimp only
      rw [phaseMoveRelease_J]
      apply phaseMoveJump_J
      rw [phaseMoveGrav_J]
      exact phaseMoveWall_J s tin env hj

lemma phaseMove_T (s : CState) (tin : CTickIn) (env : CTickEnv) :
    (phaseMove s tin env).1.groundedTimer = 0 ∨
      (phaseMove s tin env).1.groundedTimer = s.groundedTimer := by
  simp only [phaseMove]
  split
  · dsimp only
    rw [handleLedgeMovement_T]
    exact Or.inr rfl
  · split
    · dsimp only
      rw [updateMantling_T]
      exact Or.inr rfl
    · dsimp only
      rw [phaseMoveRelease_T]
      rcases phaseMoveJump_T (phaseMoveGrav (phaseMoveWall s tin env) tin.dt) tin env
        with h | h
      · exact Or.inl h
      · rw [h, phaseMoveGrav_T]
        exact phaseMoveWall_T s tin env

lemma phaseMove_M1 (s : CState) (tin : CTickIn) (env : CTickEnv)
    (hG : s.isOnGround = false) (hT : s.groundedTimer = 0) :
    (phaseMove s tin env).2 = false := by
  simp only [phaseMove]
  split
  · rfl
  · split
    · rfl
    · dsimp only
      apply phaseMoveJump_M1
      · rw [phaseMoveGrav_G]
        rcases phaseMoveWall_G s tin env with h | h
        · exact h
        · rw [h]; exact hG
      · rw [phaseMoveGrav_T]
        rcases phaseMoveWall_T s tin env with h | h
        · exact h
        · rw [h]; exact hT

lemma phaseMove_M4 (s : CState) (tin : CTickIn) (env : CTickEnv) :
    (phaseMove s tin env).2 = true →
      (phaseMove s tin env).1.isOnGround = false ∧
      (phaseMove s tin env).1.isJumping = true ∧
      (phaseMove s tin env).1.groundedTimer = 0 := by
  simp only [phaseMove]
  split
  · intro hap
    exact absurd hap Bool.false_ne_true
  · split
    · intro hap
      exact absurd hap Bool.false_ne_true
    · dsimp only
      intro hap
      have h := phaseMoveJump_ap (phaseMoveGrav (phaseMoveWall s tin env) tin.dt) tin env hap
      rw [phaseMoveRelease_G, phaseMoveRelease_J, phaseMoveRelease_T]
      exact h

lemma phaseCollide_J (s : CState) (tin : CTickIn) (env : CTickEnv) :
    (phaseCollide s tin env).1.isJumping = s.isJumping := by
  simp only [phaseCollide]
  split
  all_goals rfl

lemma phaseCollide_T (s : CState) (tin : CTickIn) (env : CTickEnv) :
    (phaseCollide s tin env).1.groundedTimer = s.groundedTimer := by
  simp only [phaseCollide]
  split
  all_goals rfl

lemma phaseJumpAssist_spec (s : CState) (tin : CTickIn) (r : CollisionResult) :
    ((phaseJumpAssist s tin r).2 = true →
      (phaseJumpAssist s tin r).1.isOnGround = false ∧
      (phaseJumpAssist s tin r).1.isJumping = true ∧
      (phaseJumpAssist s tin r).1.groundedTimer = 0) ∧
    ((phaseJumpAssist s tin r).2 = false → (phaseJumpAssist s tin r).1 = s) ∧
    (s.isJumping = true → (phaseJumpAssist s tin r).2 = false) := by
  simp only [phaseJumpAssist]
  split
  · rename_i hcond
    exact ⟨fun _ => ⟨(jumpFn_spec _).1, (jumpFn_spec _).2.1, (jumpFn_spec _).2.2⟩,
      fun hf => Bool.noConfusion hf, fun hj => absurd hj hcond.2.1⟩
  · exact ⟨fun ht => Bool.noConfusion ht, fun _ => rfl, fun _ => rfl⟩

lemma phaseWall_G (s : CState) (r : CollisionResult) :
    (phaseWall s r).isOnGround = s.isOnGround := by
  simp only [phaseWall]
  repeat' split
  all_goals rfl

lemma phaseWall_J (s : CState) (r : CollisionResult) :
    (phaseWall s r).isJumping = s.isJumping := by
  simp only [phaseWall]
  repeat' split
  all_goals rfl

lemma phaseWall_T (s : CState) (r : CollisionResult) :
    (phaseWall s r).groundedTimer = s.groundedTimer := by
  simp only [phaseWall]
  repeat' split
  all_goals rfl

lemma phasePost_G (s : CState) (w : Bool) (dt : ℚ) :
    (phasePost s w dt).isOnGround = s.isOnGround :=
  (phasePost_ground_vel s w dt).1

lemma phasePost_air_J (s : CState) (w : Bool) (dt : ℚ) (h : s.isOnGround = false) :
    (phasePost s w dt).isJumping = s.isJumping := by
  simp only [phasePost, stopWallRunning, onLanding]
  repeat' split
  all_goals simp_all

lemma phasePost_air_T (s : CState) (w : Bool) (dt : ℚ) (h : s.isOnGround = false) :
    (phasePost s w dt).groundedTimer = 0 ∨
      (phasePost s w dt).groundedTimer = s.groundedTimer := by
  simp only [phasePost, stopWallRunning, onLanding]
  repeat' split
  all_goals simp_all

lemma phaseJumpAssist_T (s : CState) (tin : CTickIn) (r : CollisionResult) :
    (phaseJumpAssist s tin r).1.groundedTimer = 0 ∨
      (phaseJumpAssist s tin r).1.groundedTimer = s.groundedTimer := by
  simp only [phaseJumpAssist]
  split
  · exact Or.inl ((jumpFn_spec _).2.2)
  · exact Or.inr rfl

lemma clientStep_afterJump (s : CState) (tin : CTickIn) (env : CTickEnv)
    (hap : (clientStepE s tin env).2 = true)
    (hg : (clientStepE s tin env).1.isOnGround = false) :
    (clientStepE s tin env).1.isJumping = true ∧
    (clientStepE s tin env).1.groundedTimer = 0 := by
  simp only [clientStepE] at hap hg ⊢
  set p := phasePre s tin env with hp
  set m := phaseMove p tin env with hm
  set c := phaseCollide m.1 tin env with hc
  set j := phaseJumpAssist c.1 tin c.2 with hj2
  set w := phaseWall j.1 c.2 with hw
  rw [phasePost_G] at hg
  have hjg : j.1.isOnGround = false := by
    rw [hw, phaseWall_G] at hg
    exact hg
  have hor : m.2 = true ∨ j.2 = true := by simpa using hap
  have hJT : j.1.isJumping = true ∧ j.1.groundedTimer = 0 := by
    rcases hor with hm2 | hj2'
    · have h4 := phaseMove_M4 p tin env (hm ▸ hm2)
      rw [← hm] at h4
      have hcj : c.1.isJumping = true := by
        rw [hc, phaseCollide_J]
        exact h4.2.1
      have hct : c.1.groundedTimer = 0 := by
        rw [hc, phaseCollide_T]
        exact h4.2.2
      have hjf : (phaseJumpAssist c.1 tin c.2).2 = false :=
        (phaseJumpAssist_spec c.1 tin c.2).2.2 hcj
      have hje : (phaseJumpAssist c.1 tin c.2).1 = c.1 :=
        (phaseJumpAssist_spec c.1 tin c.2).2.1 hjf
      rw [hj2, hje]
      exact ⟨hcj, hct⟩
    · have h5 := (phaseJumpAssist_spec c.1 tin c.2).1 (hj2 ▸ hj2')
      rw [← hj2] at h5
      exact ⟨h5.2.1, h5.2.2⟩
  constructor
  · rw [phasePost_air_J _ _ _ hg, hw, phaseWall_J]
    exact hJT.1
  · rcases phasePost_air_T w s.isOnGround tin.dt hg with h | h
    · exact h
    · rw [h, hw, phaseWall_T]
      exact hJT.2

lemma clientStep_J_persist (s : CState) (tin : CTickIn) (env : CTickEnv)
    (hj : s.isJumping = true)
    (hg : (clientStepE s tin env).1.isOnGround = false) :
    (clientStepE s tin env).1.isJumping = true := by
  simp only [clientStepE] at hg ⊢
  set p := phasePre s tin env with hp
  set m := phaseMove p tin env with hm
  set c := phaseCollide m.1 tin env with hc
  set j := phaseJumpAssist c.1 tin c.2 with hj2
  set w := phaseWall j.1 c.2 with hw
  rw [phasePost_G] at hg
  have hpj : p.isJumping = true := by
    rw [hp, phasePre_J]
    exact hj
  have hmj : m.1.isJumping = true := by
    rw [hm]
    exact phaseMove_J p tin env hpj
  have hcj : c.1.isJumping = true := by
    rw [hc, phaseCollide_J]
    exact hmj
  have hjf : (phaseJumpAssist c.1 tin c.2).2 = false :=
    (phaseJumpAssist_spec c.1 tin c.2).2.2 hcj
  have hje : (phaseJumpAssist c.1 tin c.2).1 = c.1 :=
    (phaseJumpAssist_spec c.1 tin c.2).2.1 hjf
  have hjj : j.1.isJumping = true := by
    rw [hj2, hje]
    exact hcj
  rw [phasePost_air_J _ _ _ hg, hw, phaseWall_J]
  exact hjj

lemma clientStep_T (s : CState) (tin : CTickIn) (env : CTickEnv)
    (hg : (clientStepE s tin env).1.isOnGround = false) :
    (clientStepE s tin env).1.groundedTimer = 0 ∨
      (clientStepE s tin env).1.groundedTimer = s.groundedTimer := by
  simp only [clientStepE] at hg ⊢
  set p := phasePre s tin env with hp
  set m := phaseMove p tin env with hm
  set c := phaseCollide m.1 tin env with hc
  set j := phaseJumpAssist c.1 tin c.2 with hj2
  set w := phaseWall j.1 c.2 with hw
  rw [phasePost_G] at hg
  have hpT : p.groundedTimer = s.groundedTimer := by
    rw [hp, phasePre_T]
  have hmT : m.1.groundedTimer = 0 ∨ m.1.groundedTimer = s.groundedTimer := by
    rw [hm]
    rcases phaseMove_T p tin env with h | h
    · exact Or.inl h
    · rw [h, hpT]
      exact Or.inr rfl
  have hcT : c.1.groundedTimer = m.1.groundedTimer := by
    rw [hc, phaseCollide_T]
  have hjT : j.1.groundedTimer = 0 ∨ j.1.groundedTimer = s.groundedTimer := by
    rw [hj2]
    rcases phaseJumpAssist_T c.1 tin c.2 with h | h
    · exact Or.inl h
    · rw [h, hcT]
      exact hmT
  have hwT : w.groundedTimer = j.1.groundedTimer := by
    rw [hw, phaseWall_T]
  rcases phasePost_air_T w s.isOnGround tin.dt hg with h | h
  · exact Or.inl h
  · rw [h, hwT]
    exact hjT

lemma clientStep_blocked (s : CState) (tin : CTickIn) (env : CTickEnv)
    (hG : s.isOnGround = false) (hT : s.groundedTimer = 0) (hJ : s.isJumping = true) :
    (clientStepE s tin env).2 = false := by
  simp only [clientStepE]
  set p := phasePre s tin env with hp
  set m := phaseMove p tin env with hm
  set c := phaseCollide m.1 tin env with hc
  have h1 : p.isOnGround = false := by
    rw [hp, phasePre_G]
    exact hG
  have h2 : p.groundedTimer = 0 := by
    rw [hp, phasePre_T]
    exact hT
  have h3 : p.isJumping = true := by
    rw [hp, phasePre_J]
    exact hJ
  have hmf : m.2 = false := by
    rw [hm]
    exact phaseMove_M1 p tin env h1 h2
  have hmj : m.1.isJumping = true := by
    rw [hm]
    exact phaseMove_J p tin env h3
  have hcj : c.1.isJumping = true := by
    rw [hc, phaseCollide_J]
    exact hmj
  have hjf : (phaseJumpAssist c.1 tin c.2).2 = false :=
    (phaseJumpAssist_spec c.1 tin c.2).2.2 hcj
  rw [hmf, hjf]
  rfl

lemma clientRun_append : ∀ (l1 l2 : List CTick) (s : CState),
    clientRun s (l1 ++ l2) = clientRun (clientRun s l1) l2
  | [], _, _ => rfl
  | t :: ts, l2, s => clientRun_append ts l2 (clientStepE s t.tin t.env).1

lemma clientStateAt_succ (s0 : CState) (ts : List CTick) (k : ℕ) :
    clientStateAt s0 ts (k + 1) =
      match ts.get? k with
      | none => clientStateAt s0 ts k
      | some t => (clientStepE (clientStateAt s0 ts k) t.tin t.env).1 := by
  cases hk : ts.get? k with
  | none =>
      have hlen : ts.length ≤ k := List.get?_eq_none.mp hk
      simp only [clientStateAt]
      rw [List.take_of_length_le (le_trans hlen (Nat.le_succ k)),
        List.take_of_length_le hlen]
  | some t =>
      have hk2 : ts[k]? = some t := by
        rw [← List.get?_eq_getElem?]
        exact hk
      simp only [clientStateAt]
      rw [List.take_succ, hk2]
      rw [clientRun_append]
      rfl

lemma client_noflip_inv (s0 : CState) (ts : List CTick) (i : ℕ)
    (hbase : (clientStateAt s0 ts (i + 1)).isOnGround = false ∧
      (clientStateAt s0 ts (i + 1)).groundedTimer = 0 ∧
      (clientStateAt s0 ts (i + 1)).isJumping = true) :
    ∀ d, (∀ m, i + 1 ≤ m → m < i + 1 + d →
        ¬((clientStateAt s0 ts m).isOnGround = false ∧
          (clientStateAt s0 ts (m + 1)).isOnGround = true)) →
      (clientStateAt s0 ts (i + 1 + d)).isOnGround = false ∧
      (clientStateAt s0 ts (i + 1 + d)).groundedTimer = 0 ∧
      (clientStateAt s0 ts (i + 1 + d)).isJumping = true
  | 0, _ => hbase
  | d + 1, hnf => by
      have ih := client_noflip_inv s0 ts i hbase d
        (fun m hm1 hm2 => hnf m hm1 (Nat.lt_succ_of_lt hm2))
      have hstep := hnf (i + 1 + d) (by omega) (by omega)
      rw [show i + 1 + (d + 1) = (i + 1 + d) + 1 by omega]
      rw [clientStateAt_succ]
      cases hk : ts.get? (i + 1 + d) with
      | none => exact ih
      | some t =>
          have hg : (clientStepE (clientStateAt s0 ts (i + 1 + d)) t.tin
              t.env).1.isOnGround = false := by
            cases hb : (clientStepE (clientStateAt s0 ts (i + 1 + d)) t.tin
                t.env).1.isOnGround with
            | false => rfl
            | true =>
                exfalso
                apply hstep
                refine ⟨ih.1, ?_⟩
                rw [clientStateAt_succ, hk]
                exact hb
          refine ⟨hg, ?_, clientStep_J_persist _ t.tin t.env ih.2.2 hg⟩
          rcases clientStep_T _ t.tin t.env hg with h | h
          · exact h
          · rw [h]
            exact ih.2.1

lemma srvHandleCrouching_cj (s : SrvState) (b : Bool) :
    (srvHandleCrouching s b).canJump = s.canJump := by
  simp only [srvHandleCrouching]
  split
  all_goals rfl

lemma srvHandleSprinting_cj (s : SrvState) (b : Bool) :
    (srvHandleSprinting s b).canJump = s.canJump := rfl

lemma srvApplyMovement_cj (s : SrvState) (m : Vec3) (dt : ℚ) :
    (srvApplyMovement s m dt).canJump = s.canJump := by
  simp only [srvApplyMovement]
  split
  all_goals rfl

lemma srvHandleLedgeGrabbing_cj (s : SrvState) (r : CollisionResult) (b : Bool) :
    (srvHandleLedgeGrabbing s r b).canJump = s.canJump := by
  simp only [srvHandleLedgeGrabbing]
  split
  all_goals rfl

lemma srvHandleWallRunning_cj (s : SrvState) (r : CollisionResult) (dt : ℚ) :
    (srvHandleWallRunning s r dt).canJump = s.canJump := by
  simp only [srvHandleWallRunning]
  split
  all_goals rfl

lemma srvStep_cj (s : SrvState) (o : List Collider) (t : SrvTick) :
    (s.canJump = false →
      (srvStepE s o t).1.canJump = false ∧ (srvStepE s o t).2.2 = false) ∧
    ((srvStepE s o t).2.2 = true → (srvStepE s o t).1.canJump = false) := by
  simp only [srvStepE]
  repeat' split
  all_goals constructor
  all_goals intro h
  all_goals try constructor
  all_goals
    first
      | rfl
      | exact absurd h Bool.false_ne_true
      | (simp only [srvJump, srvHandleWallRunning_cj, srvHandleLedgeGrabbing_cj,
           srvApplyMovement_cj, srvHandleSprinting_cj, srvHandleCrouching_cj]
         first
           | rfl
           | exact h
           | (rename_i hcond
              exfalso
              simp only [srvHandleWallRunning_cj, srvHandleLedgeGrabbing_cj,
                srvApplyMovement_cj, srvHandleSprinting_cj,
                srvHandleCrouching_cj] at hcond
              rw [h] at hcond
              exact Bool.false_ne_true hcond.2.1))

lemma srvRun_append : ∀ (l1 l2 : List SrvTick) (s : SrvState) (o : List Collider),
    srvRun s o (l1 ++ l2) = srvRun (srvRun s o l1).1 (srvRun s o l1).2 l2
  | [], _, _, _ => rfl
  | t :: ts, l2, s, o => srvRun_append ts l2 (srvStepE s o t).1 (srvStepE s o t).2.1

lemma srvStateAt_succ (s0 : SrvState) (o : List Collider) (ts : List SrvTick) (k : ℕ) :
    srvStateAt s0 o ts (k + 1) =
      match ts.get? k with
      | none => srvStateAt s0 o ts k
      | some t =>
          ((srvStepE (srvStateAt s0 o ts k).1 (srvStateAt s0 o ts k).2 t).1,
            (srvStepE (srvStateAt s0 o ts k).1 (srvStateAt s0 o ts k).2 t).2.1) := by
  cases hk : ts.get? k with
  | none =>
      have hlen : ts.length ≤ k := List.get?_eq_none.mp hk
      simp only [srvStateAt]
      rw [List.take_of_length_le (le_trans hlen (Nat.le_succ k)),
        List.take_of_length_le hlen]
  | some t =>
      have hk2 : ts[k]? = some t := by
        rw [← List.get?_eq_getElem?]
        exact hk
      simp only [srvStateAt]
      rw [List.take_succ, hk2]
      rw [srvRun_append]
      rfl

lemma srv_cj_persist (s0 : SrvState) (o : List Collider) (ts : List SrvTick) (k : ℕ)
    (h : (srvStateAt s0 o ts k).1.canJump = false) :
    ∀ d, (srvStateAt s0 o ts (k + d)).1.canJump = false
  | 0 => h
  | d + 1 => by
      have ih := srv_cj_persist s0 o ts k h d
      rw [show k + (d + 1) = (k + d) + 1 by omega, srvStateAt_succ]
      cases hk : ts.get? (k + d) with
      | none => exact ih
      | some t => exact ((srvStep_cj _ _ t).1 ih).1

lemma srv_applied_blocks (s0 : SrvState) (o : List Collider) (ts : List SrvTick)
    (i j : ℕ) (hij : i < j) (hai : srvAppliedAt s0 o ts i = true) :
    srvAppliedAt s0 o ts j = false := by
  have h1 : (srvStateAt s0 o ts (i + 1)).1.canJump = false := by
    rw [srvStateAt_succ]
    cases hk : ts.get? i with
    | none =>
        rw [srvAppliedAt, hk] at hai
        exact absurd hai Bool.false_ne_true
    | some t =>
        have hai2 : (srvStepE (srvStateAt s0 o ts i).1 (srvStateAt s0 o ts i).2 t).2.2
            = true := by
          rw [srvAppliedAt, hk] at hai
          exact hai
        exact (srvStep_cj _ _ t).2 hai2
  obtain ⟨d, hd⟩ : ∃ d, j = (i + 1) + d := ⟨j - (i + 1), by omega⟩
  have h2 := srv_cj_persist s0 o ts (i + 1) h1 d
  rw [← hd] at h2
  cases hkj : ts.get? j with
  | none =>
      rw [srvAppliedAt, hkj]
  | some tj =>
      rw [srvAppliedAt, hkj]
      exact ((srvStep_cj _ _ tj).1 h2).2

/-- C1: on the client, with the proviso that a jump application actually
leaves the character airborne at its tick's end, ticks i < j that both apply
the upward jump velocity are separated by a landing: at some tick boundary
between them the character is airborne and then grounded again.  (Without
the proviso the claim fails, see the counterexample: a sweep collision on
the jump tick can cancel the jump and re-ground the character, letting a
second jump fire with no airborne boundary in between.)  On the server,
canJump is never restored after a jump, so at most one tick of a trace ever
applies the jump velocity. -/
theorem C1_single_jump_per_contact :
    (∀ (s0 : CState) (ts : List CTick) (i j : ℕ),
      i < j → clientAppliedAt s0 ts i = true → clientAppliedAt s0 ts j = true →
      (clientStateAt s0 ts (i + 1)).isOnGround = false →
      ∃ m, i + 1 ≤ m ∧ m + 1 ≤ j ∧
        (clientStateAt s0 ts m).isOnGround = false ∧
        (clientStateAt s0 ts (m + 1)).isOnGround = true) ∧
    (∀ (s0 : SrvState) (objects : List Collider) (ts : List SrvTick) (i j : ℕ),
      srvAppliedAt s0 objects ts i = true → srvAppliedAt s0 objects ts j = true →
      i = j) := by
  constructor
  · intro s0 ts i j hij hai haj hair
    by_contra hno
    obtain ⟨t, ht⟩ : ∃ t, ts.get? i = some t := by
      cases hk : ts.get? i with
      | none =>
          rw [clientAppliedAt, hk] at hai
          exact absurd hai Bool.false_ne_true
      | some t => exact ⟨t, rfl⟩
    have hstep : clientStateAt s0 ts (i + 1) =
        (clientStepE (clientStateAt s0 ts i) t.tin t.env).1 := by
      rw [clientStateAt_succ, ht]
    have hap : (clientStepE (clientStateAt s0 ts i) t.tin t.env).2 = true := by
      rw [clientAppliedAt, ht] at hai
      exact hai
    have hJT := clientStep_afterJump _ t.tin t.env hap (hstep ▸ hair)
    have hbase : (clientStateAt s0 ts (i + 1)).isOnGround = false ∧
        (clientStateAt s0 ts (i + 1)).groundedTimer = 0 ∧
        (clientStateAt s0 ts (i + 1)).isJumping = true := by
      refine ⟨hair, ?_, ?_⟩
      · rw [hstep]
        exact hJT.2
      · rw [hstep]
        exact hJT.1
    obtain ⟨d, hd⟩ : ∃ d, j = i + 1 + d := ⟨j - (i + 1), by omega⟩
    have hnf : ∀ m, i + 1 ≤ m → m < i + 1 + d →
        ¬((clientStateAt s0 ts m).isOnGround = false ∧
          (clientStateAt s0 ts (m + 1)).isOnGround = true) := by
      intro m hm1 hm2 hcon
      exact hno ⟨m, hm1, by omega, hcon.1, hcon.2⟩
    have hinv := client_noflip_inv s0 ts i hbase d hnf
    rw [← hd] at hinv
    obtain ⟨tj, htj⟩ : ∃ tj, ts.get? j = some tj := by
      cases hk : ts.get? j with
      | none =>
          rw [clientAppliedAt, hk] at haj
          exact absurd haj Bool.false_ne_true
      | some tj => exact ⟨tj, rfl⟩
    have haj2 : (clientStepE (clientStateAt s0 ts j) tj.tin tj.env).2 = true := by
      rw [clientAppliedAt, htj] at haj
      exact haj
    have hblk := clientStep_blocked (clientStateAt s0 ts j) tj.tin tj.env
      hinv.1 hinv.2.1 hinv.2.2
    rw [hblk] at haj2
    exact absurd haj2 Bool.false_ne_true
  · intro s0 objects ts i j hai haj
    rcases lt_trichotomy i j with h | h | h
    · have := srv_applied_blocks s0 objects ts i j h hai
      rw [this] at haj
      exact absurd haj Bool.false_ne_true
    · exact h
    · have := srv_applied_blocks s0 objects ts j i h haj
      rw [this] at hai
      exact absurd hai Bool.false_ne_true

/-- A grounded character standing 0.02 above the origin, as the eaten-jump
trace starts. -/
def ceState : CState := { CState.initial ⟨0, 0.02, 0⟩ with isOnGround := true }

/-- The eaten-jump tick: sprinting into a wall while jumping; the sweep ray
hits the wall 0.4 away with a tilted normal, the velocity response cancels
the upward velocity, and the ground phase re-grounds the character in the
same tick. -/
def ceJumpTick : CTick :=
  { tin := { dt := 1/6, normInput := ⟨1, 0, 0⟩, inputLen := 1, jumpPressed := true
             crouchPressed := false, sprintPressed := true }
    env := { flatGroundEnv with
        sweep := some { distance := 0.4, normal := ⟨-3/5, 4/5, 0⟩
                        pulledPos := ⟨0, 0, 0⟩ } } }

/-- A follow-up tick on flat ground with the jump button still held. -/
def ceIdleTick : CTick :=
  { tin := { dt := 0.1, normInput := Vec3.zero, inputLen := 0, jumpPressed := true
             crouchPressed := false, sprintPressed := false }
    env := flatGroundEnv }

/-- The eaten-jump trace. -/
def ceTicks : List CTick := [ceJumpTick, ceIdleTick, ceIdleTick, ceIdleTick]

/-- Counterexample to C1 as claimed: ticks 0 and 3 of the eaten-jump trace
both execute jump() (set the vertical velocity to the jump force), yet the
character is grounded at every tick boundary in between — it never leaves
the ground between the two applications, so jump-held input yields two
upward applications within a single ground contact. -/
theorem C1_counterexample :
    clientAppliedAt ceState ceTicks 0 = true ∧
    clientAppliedAt ceState ceTicks 3 = true ∧
    (clientStateAt ceState ceTicks 1).isOnGround = true ∧
    (clientStateAt ceState ceTicks 2).isOnGround = true ∧
    (clientStateAt ceState ceTicks 3).isOnGround = true := by
  decide

/-- A clean grounded start state for the witness trace. -/
def wState : CState := { CState.initial ⟨0, 0.02, 0⟩ with isOnGround := true }

/-- A quarter-second tick holding jump over flat ground with no obstruction. -/
def wJumpTick : CTick :=
  { tin := { dt := 0.25, normInput := Vec3.zero, inputLen := 0, jumpPressed := true
             crouchPressed := false, sprintPressed := false }
    env := flatGroundEnv }

/-- A one-second falling tick holding jump over flat ground. -/
def wFallTick : CTick :=
  { tin := { dt := 1, normInput := Vec3.zero, inputLen := 0, jumpPressed := true
             crouchPressed := false, sprintPressed := false }
    env := flatGroundEnv }

/-- The witness trace: jump, fall back and land, jump again. -/
def wTicks : List CTick := [wJumpTick, wFallTick, wJumpTick]

/-- A server tick holding jump with no colliders (the hard floor grounds the
controller). -/
def srvJumpTick : SrvTick :=
  { dt := 0.05
    input := { moveForward := false, moveBackward := false, moveLeft := false
               moveRight := false, jump := true, sprint := false, crouch := false
               fire := false, reload := false, aim := false }
    jump := true, moveDirN := Vec3.zero, orc := emptyOracle, dirs := [] }

/-- Witness for C1: on the witness trace, ticks 0 and 2 both jump and the
jump at tick 0 leaves the character airborne, so the theorem produces the
landing boundary between them; on the server, the single jumping tick of a
one-tick trace is equal to itself. -/
theorem C1_single_jump_per_contact_witness :
    (∃ m, 0 + 1 ≤ m ∧ m + 1 ≤ 2 ∧
      (clientStateAt wState wTicks m).isOnGround = false ∧
      (clientStateAt wState wTicks (m + 1)).isOnGround = true) ∧ (0 : ℕ) = 0 :=
  ⟨C1_single_jump_per_contact.1 wState wTicks 0 2 (by decide) (by decide) (by decide)
      (by decide),
    C1_single_jump_per_contact.2 SrvState.init [] [srvJumpTick] 0 0 (by decide)
      (by decide)⟩

end JsGame
